import Mathlib

/-!
Shallow embedding of the conversational slot-filling core of the
AI_Travel_Website repository: the pattern intent classifier and chat handler
(`intent-classifier.ts`, `chat-handler.ts`), the LLM intent classifier and
smart chat handler (`llm-intent-classifier.ts`, `smart-chat-handler.ts`) and
the conversation context store (`conversation-context.ts`).

Modelling conventions, used throughout:
* A JS `string` is a Lean `String`; an optional (possibly `undefined`) string
  field is `Option String`, an optional `number` field is `Option Int`
  (the repository only ever stores integers in these fields).
  JS truthiness is `truthyStr` / `truthyInt`: `undefined`, `""` and `0` are
  falsy, everything else truthy, and `a || b` is `jsOrStr` / `jsOrInt`.
* A JS object used as a string map (`Record<string, …>`) is a
  `List (String × String)` of key/value pairs in insertion order.
* `RegExp.test` of the intent pattern table is a platform builtin and is left
  as an oracle parameter (a function `String → String → Bool` from the regex
  source text and the message), as are the capture groups of the extraction
  regexes (`JsRegex`).  Everything downstream of the captures — city lookup,
  date arithmetic, priority selection, slot merging, dispatch — is embedded
  concretely.  The four word-alternation regexes of `fallbackClassify` and the
  digit/month scanners inside `parseDateFromMatch` are simple enough to embed
  exactly (`wordAltTest`, `dayScan`, `yearScan`, `monthScan`).
* A JS `Date` constructed as `new Date(y, m, d)` is a calendar day `YDate`
  (year and 1-based day-of-year); the current instant `new Date()` is a `Now`:
  a calendar day plus whether any time has elapsed since midnight (so that
  `new Date(y, m, d) < new Date()` is `ltNow`).  The local timezone is taken
  to be UTC, so `toISOString().split("T")[0]` is `formatDate`.
* External calls (`amadeusAPI`, OpenAI, Tavily) are oracle parameters
  returning `Except Unit …`; an `Except.error` models a thrown promise
  rejection.  Handlers return their response together with the list of
  external calls they performed (`ExtCall`), so "performs no external search"
  is `calls = []`.  Floating point `confidence` is not modelled.
-/

namespace Travel

/-- JS truthiness of an optional string: `undefined` and `""` are falsy. -/
def truthyStr : Option String → Bool
  | none => false
  | some s => !(s == "")

/-- JS truthiness of an optional number: `undefined` and `0` are falsy. -/
def truthyInt : Option Int → Bool
  | none => false
  | some n => !(n == 0)

/-- JS `a || b` on optional strings. -/
def jsOrStr (a b : Option String) : Option String :=
  if truthyStr a then a else b

/-- JS `a || b` on optional numbers. -/
def jsOrInt (a b : Option Int) : Option Int :=
  if truthyInt a then a else b

/-- JS `v || d` for an optional string against a non-empty default. -/
def jsOrDefStr (v : Option String) (d : String) : String :=
  match v with
  | some s => if s == "" then d else s
  | none => d

/-- JS `v || 1` for an optional number. -/
def jsOrOne (v : Option Int) : Int :=
  match v with
  | some n => if n == 0 then 1 else n
  | none => 1

/-- JS `v || d` for an optional number against a non-zero default. -/
def jsOrDefInt (v : Option Int) (d : Int) : Int :=
  match v with
  | some n => if n == 0 then d else n
  | none => d

/-- First value stored under a key in a key/value list (JS property read on
an object literal map). -/
def jsLookup (m : List (String × String)) (k : String) : Option String :=
  (m.find? (fun p => p.1 == k)).map (·.2)

/-- ASCII lowercase of one character (`toLowerCase`; all the strings this
code compares are ASCII). -/
def lowerChar (c : Char) : Char :=
  if 'A' ≤ c && c ≤ 'Z' then Char.ofNat (c.toNat + 32) else c

/-- ASCII uppercase of one character (`toUpperCase`). -/
def upperChar (c : Char) : Char :=
  if 'a' ≤ c && c ≤ 'z' then Char.ofNat (c.toNat - 32) else c

/-- JS `s.toLowerCase()`. -/
def jsToLower (s : String) : String := String.mk (s.data.map lowerChar)

/-- JS `s.toUpperCase()`. -/
def jsToUpper (s : String) : String := String.mk (s.data.map upperChar)

/-- ASCII whitespace (the only whitespace occurring in this code's data). -/
def isSpaceChar (c : Char) : Bool :=
  c == ' ' || c == '\t' || c == '\n' || c == '\r'

/-- JS `s.trim()`. -/
def jsTrim (s : String) : String :=
  String.mk (((s.data.dropWhile isSpaceChar).reverse.dropWhile isSpaceChar).reverse)

/-- Check whether the first list is a prefix of the second. -/
def prefChars : List Char → List Char → Bool
  | [], _ => true
  | _ :: _, [] => false
  | a :: as, b :: bs => a == b && prefChars as bs

/-- Substring occurrence test on character lists. -/
def hasSub (needle : List Char) : List Char → Bool
  | [] => needle.isEmpty
  | c :: t => prefChars needle (c :: t) || hasSub needle t

/-- JS `s.includes(sub)`. -/
def jsIncludes (s sub : String) : Bool :=
  hasSub sub.toList s.toList

/-- JS `\d` digit class: `0`–`9` (code points 48–57). -/
def isDigitChar (c : Char) : Bool := 48 ≤ c.toNat && c.toNat ≤ 57

/-- JS `\w` word-character class: ASCII letters, digits and underscore. -/
def isWordChar (c : Char) : Bool := c.isAlphanum || c == '_'

/-! Calendar model for the JS `Date` values built by `parseDateFromMatch`. -/

/-- Gregorian leap-year test, as `Date` implements it (years here are ≥ 1). -/
def isLeap (y : Int) : Bool :=
  (y % 4 == 0 && y % 100 != 0) || y % 400 == 0

/-- Days before the 0-indexed month `m` of a year; `m = 12` gives the length
of the year.  Months beyond 12 do not occur in this code. -/
def cumDays (leap : Bool) : Nat → Int
  | 0 => 0
  | 1 => 31
  | 2 => 59 + if leap then 1 else 0
  | 3 => 90 + if leap then 1 else 0
  | 4 => 120 + if leap then 1 else 0
  | 5 => 151 + if leap then 1 else 0
  | 6 => 181 + if leap then 1 else 0
  | 7 => 212 + if leap then 1 else 0
  | 8 => 243 + if leap then 1 else 0
  | 9 => 273 + if leap then 1 else 0
  | 10 => 304 + if leap then 1 else 0
  | 11 => 334 + if leap then 1 else 0
  | _ => 365 + if leap then 1 else 0

/-- Number of days of a year. -/
def daysInYear (y : Int) : Int := cumDays (isLeap y) 12

/-- A calendar day: year plus 1-based day-of-year. -/
structure YDate where
  year : Int
  doy : Int
deriving DecidableEq, Repr

/-- Model of JS `new Date(y, m, d)` with a 0-indexed month `m ≤ 12` and a
day number `d` that may be 0 or exceed the month length (the regex captures
feeding this are bounded by 0 ≤ d ≤ 99, for which spilling a single year in
either direction is exact). -/
def mkYD (y : Int) (m : Nat) (d : Int) : YDate :=
  let doy := cumDays (isLeap y) m + d
  if doy ≤ 0 then ⟨y - 1, doy + daysInYear (y - 1)⟩
  else if doy > daysInYear y then ⟨y + 1, doy - daysInYear y⟩
  else ⟨y, doy⟩

/-- Recover the 0-indexed month and 1-based day-of-month from a day-of-year. -/
def monthFromDoy (leap : Bool) (doy : Int) : Nat × Int :=
  if doy ≤ cumDays leap 1 then (0, doy - cumDays leap 0)
  else if doy ≤ cumDays leap 2 then (1, doy - cumDays leap 1)
  else if doy ≤ cumDays leap 3 then (2, doy - cumDays leap 2)
  else if doy ≤ cumDays leap 4 then (3, doy - cumDays leap 3)
  else if doy ≤ cumDays leap 5 then (4, doy - cumDays leap 4)
  else if doy ≤ cumDays leap 6 then (5, doy - cumDays leap 5)
  else if doy ≤ cumDays leap 7 then (6, doy - cumDays leap 6)
  else if doy ≤ cumDays leap 8 then (7, doy - cumDays leap 7)
  else if doy ≤ cumDays leap 9 then (8, doy - cumDays leap 8)
  else if doy ≤ cumDays leap 10 then (9, doy - cumDays leap 9)
  else if doy ≤ cumDays leap 11 then (10, doy - cumDays leap 10)
  else (11, doy - cumDays leap 11)

/-- Model of `date.setFullYear(date.getFullYear() + 1)`: keep the (normalised)
month and day-of-month and renormalise in the next year. -/
def setYearPlusOne (d : YDate) : YDate :=
  let md := monthFromDoy (isLeap d.year) d.doy
  mkYD (d.year + 1) md.1 md.2

/-- The current instant `new Date()`: a calendar day plus whether any time
has elapsed since local midnight. -/
structure Now where
  year : Int
  doy : Int
  timePassed : Bool
deriving DecidableEq, Repr

/-- Calendar day of the current instant. -/
def nowDate (n : Now) : YDate := ⟨n.year, n.doy⟩

/-- Strict chronological order on calendar days. -/
def ydLt (a b : YDate) : Bool :=
  a.year < b.year || (a.year == b.year && a.doy < b.doy)

/-- JS `date < new Date()` for a `date` at local midnight. -/
def ltNow (d : YDate) (n : Now) : Bool :=
  ydLt d (nowDate n) || (d == nowDate n && n.timePassed)

/-- The current instant is a real calendar day. -/
def ValidNow (n : Now) : Prop :=
  1 ≤ n.doy ∧ n.doy ≤ daysInYear n.year

/-- Add a (small, non-negative) number of days to a calendar day. -/
def addDays (d : YDate) (k : Int) : YDate :=
  if d.doy + k > daysInYear d.year then ⟨d.year + 1, d.doy + k - daysInYear d.year⟩
  else ⟨d.year, d.doy + k⟩

/-- Model of `setMonth(getMonth() + 1)` on a calendar day. -/
def nextMonthDate (d : YDate) : YDate :=
  let md := monthFromDoy (isLeap d.year) d.doy
  mkYD d.year (md.1 + 1) md.2

/-- Zero-pad a number below 100 to two digits. -/
def pad2 (n : Int) : String :=
  if n < 10 then "0" ++ toString n else toString n

/-- Model of `date.toISOString().split("T")[0]` (`formatDate` in the source),
with the local timezone taken to be UTC. -/
def formatDate (d : YDate) : String :=
  let md := monthFromDoy (isLeap d.year) d.doy
  toString d.year ++ "-" ++ pad2 (Int.ofNat (md.1 + 1)) ++ "-" ++ pad2 md.2

/-! Digit-run scanners: exact models of the three regex probes that
`parseDateFromMatch` runs over the lowercased full match. -/

/-- Decimal value of a list of digit characters. -/
def digitsToInt (l : List Char) : Int :=
  l.foldl (fun a c => a * 10 + (Int.ofNat c.toNat - 48)) 0

/-- Collect the maximal digit runs of the text that have a word boundary on
both sides.  `ok` records whether the character before the current position
(or before the run being accumulated in `cur`, reversed) is a non-word
character or the start of the text. -/
def cleanRunsAux : Bool → List Char → List Char → List (List Char)
  | ok, cur, [] => if !cur.isEmpty && ok then [cur.reverse] else []
  | ok, cur, c :: t =>
    if isDigitChar c then
      cleanRunsAux ok (c :: cur) t
    else
      let rest := cleanRunsAux (!(isWordChar c)) [] t
      if !cur.isEmpty && ok && !(isWordChar c) then cur.reverse :: rest else rest

/-- Maximal boundary-clean digit runs of a text, left to right. -/
def cleanRuns (l : List Char) : List (List Char) :=
  cleanRunsAux true [] l

/-- Model of `fullMatch.match(/\b(\d{1,2})\b/)`: the first boundary-clean
digit run of length 1–2. -/
def dayScan (l : List Char) : Option Int :=
  ((cleanRuns l).find? (fun r => r.length ≤ 2 && r.all isDigitChar)).map digitsToInt

/-- Model of `fullMatch.match(/\b(20\d{2})\b/)`: the first boundary-clean
digit run that is exactly `20??`. -/
def yearScan (l : List Char) : Option Int :=
  ((cleanRuns l).find?
    (fun r => r.length == 4 && prefChars ['2', '0'] r && r.all isDigitChar)).map digitsToInt

/-- The `monthMap` of `intent-classifier.ts`, in object insertion order
(the source scans `Object.entries(monthMap)` for the first name that the
match includes). -/
def MONTH_ENTRIES : List (String × Nat) :=
  [("jan", 0), ("january", 0), ("feb", 1), ("february", 1),
   ("mar", 2), ("march", 2), ("apr", 3), ("april", 3), ("may", 4),
   ("jun", 5), ("june", 5), ("jul", 6), ("july", 6),
   ("aug", 7), ("august", 7), ("sep", 8), ("september", 8),
   ("oct", 9), ("october", 9), ("nov", 10), ("november", 10),
   ("dec", 11), ("december", 11)]

/-- First month name included in the lowercased match. -/
def monthScan (s : String) : Option Nat :=
  (MONTH_ENTRIES.find? (fun e => jsIncludes s e.1)).map (·.2)

/-- Core of `parseDateFromMatch` for a specific day and month: build the date
in the explicit or current year and bump it one year if it lies in the past. -/
def resolveSpecific (n : Now) (day : Int) (m : Nat) (yearOpt : Option Int) : YDate :=
  let y := yearOpt.getD n.year
  let date := mkYD y m day
  if ltNow date n then setYearPlusOne date else date

/-- Date computed by `parseDateFromMatch`, if any: relative keywords first,
then a specific day plus month; `none` means the raw match falls through. -/
def parseDateYD (n : Now) (fullMatch : String) : Option YDate :=
  let s := jsToLower fullMatch
  if jsIncludes s "tomorrow" then some (addDays (nowDate n) 1)
  else if jsIncludes s "today" then some (nowDate n)
  else if jsIncludes s "next week" then some (addDays (nowDate n) 7)
  else if jsIncludes s "next month" then some (nextMonthDate (nowDate n))
  else
    match dayScan s.toList, monthScan s with
    | some d, some m => some (resolveSpecific n d m (yearScan s.toList))
    | _, _ => none

/-- The `parseDateFromMatch` of `intent-classifier.ts`, applied to the
regex match text `match[0]`. -/
def parseDateFromMatch (n : Now) (fullMatch : String) : String :=
  match parseDateYD n fullMatch with
  | some d => formatDate d
  | none => jsToLower fullMatch

/-! Embedding of `conversation-context.ts`.  A `Record<string, unknown>`
metadata object is modelled as a key/value list with string values. -/

namespace ConvContext

/-- The `ConversationContext` interface: every field except `chat_id` is
optional (`null` and `undefined` are both `none`; the merge and save code
treats them identically through truthiness). -/
structure ConversationContext where
  id : Option String := none
  chat_id : String
  user_id : Option String := none
  intent : Option String := none
  origin : Option String := none
  destination : Option String := none
  departure_date : Option String := none
  return_date : Option String := none
  passengers : Option Int := none
  check_in : Option String := none
  check_out : Option String := none
  rooms : Option Int := none
  metadata : Option (List (String × String)) := none
  created_at : Option String := none
  updated_at : Option String := none
deriving DecidableEq, Repr

/-- A `Partial<ConversationContext>`: every field optional, `none` meaning
the field is absent (or `undefined`). -/
structure PartialContext where
  id : Option String := none
  chat_id : Option String := none
  user_id : Option String := none
  intent : Option String := none
  origin : Option String := none
  destination : Option String := none
  departure_date : Option String := none
  return_date : Option String := none
  passengers : Option Int := none
  check_in : Option String := none
  check_out : Option String := none
  rooms : Option Int := none
  metadata : Option (List (String × String)) := none
  created_at : Option String := none
  updated_at : Option String := none
deriving DecidableEq, Repr

/-- JS object spread `{...old, ...new}`: the keys of `old` in order with
values overridden by `new` where present, then the keys only in `new`. -/
def spreadMerge (old new : List (String × String)) : List (String × String) :=
  old.map (fun p => (p.1, (jsLookup new p.1).getD p.2)) ++
    new.filter (fun p => !(jsLookup old p.1).isSome)

/-- The `mergeContext` of `conversation-context.ts`: new truthy values
override, falsy ones keep the existing value, and metadata objects are
spread-merged. -/
def mergeContext (existing : Option ConversationContext) (nc : PartialContext) :
    ConversationContext :=
  match existing with
  | none =>
    { chat_id := (jsOrStr nc.chat_id (some "")).getD ""
      id := nc.id
      user_id := nc.user_id
      intent := nc.intent
      origin := nc.origin
      destination := nc.destination
      departure_date := nc.departure_date
      return_date := nc.return_date
      passengers := nc.passengers
      check_in := nc.check_in
      check_out := nc.check_out
      rooms := nc.rooms
      metadata := nc.metadata
      created_at := nc.created_at
      updated_at := nc.updated_at }
  | some e =>
    { e with
      intent := jsOrStr nc.intent e.intent
      origin := jsOrStr nc.origin e.origin
      destination := jsOrStr nc.destination e.destination
      departure_date := jsOrStr nc.departure_date e.departure_date
      return_date := jsOrStr nc.return_date e.return_date
      passengers := jsOrInt nc.passengers e.passengers
      check_in := jsOrStr nc.check_in e.check_in
      check_out := jsOrStr nc.check_out e.check_out
      rooms := jsOrInt nc.rooms e.rooms
      metadata := some (spreadMerge (e.metadata.getD []) (nc.metadata.getD [])) }

/-- The row `saveConversationContext` upserts: `passengers` and `rooms` are
plain numbers after the `|| 1` defaults, the other slots are `null`able. -/
structure UpsertRow where
  chat_id : String
  user_id : Option String
  intent : Option String
  origin : Option String
  destination : Option String
  departure_date : Option String
  return_date : Option String
  passengers : Int
  check_in : Option String
  check_out : Option String
  rooms : Int
  metadata : List (String × String)
deriving DecidableEq, Repr

/-- JS `x || null` on an optional string field. -/
def orNull (v : Option String) : Option String :=
  if truthyStr v then v else none

/-- The `upsertData` object built inside `saveConversationContext` (the pure
part of the function; the supabase upsert itself is I/O). -/
def buildUpsertRow (c : ConversationContext) : UpsertRow :=
  { chat_id := c.chat_id
    user_id := orNull c.user_id
    intent := orNull c.intent
    origin := orNull c.origin
    destination := orNull c.destination
    departure_date := orNull c.departure_date
    return_date := orNull c.return_date
    passengers := match c.passengers with
      | none => 1
      | some n => if n == 0 then 1 else n
    check_in := orNull c.check_in
    check_out := orNull c.check_out
    rooms := match c.rooms with
      | none => 1
      | some n => if n == 0 then 1 else n
    metadata := c.metadata.getD [] }

end ConvContext

/-! Embedding of `intent-classifier.ts`. -/

/-- The `ExtractedParams` interface (identical in `intent-classifier.ts` and
`llm-intent-classifier.ts`). -/
structure ExtractedParams where
  origin : Option String := none
  destination : Option String := none
  departureDate : Option String := none
  returnDate : Option String := none
  travelers : Option Int := none
  cabinClass : Option String := none
  checkIn : Option String := none
  checkOut : Option String := none
  nights : Option Int := none
deriving DecidableEq, Repr

/-- Names of the `ExtractedParams` fields, used as the string keys of
`REQUIRED_PARAMS` and the question maps. -/
inductive ParamKey
  | origin | destination | departureDate | returnDate
  | travelers | cabinClass | checkIn | checkOut | nights
deriving DecidableEq, Repr

/-- JS truthiness of `params[key]`. -/
def keyTruthy (p : ExtractedParams) : ParamKey → Bool
  | .origin => truthyStr p.origin
  | .destination => truthyStr p.destination
  | .departureDate => truthyStr p.departureDate
  | .returnDate => truthyStr p.returnDate
  | .travelers => truthyInt p.travelers
  | .cabinClass => truthyStr p.cabinClass
  | .checkIn => truthyStr p.checkIn
  | .checkOut => truthyStr p.checkOut
  | .nights => truthyInt p.nights

/-- One field of a JS object spread: a key present in the second object (even
with a falsy value) overrides the first. -/
def spreadField {α : Type} (new old : Option α) : Option α :=
  match new with
  | some v => some v
  | none => old

/-- JS `{...existingContext, ...extractedParams}` on the params interface
(spread of `undefined` contributes nothing). -/
def spreadParams (ctx : Option ExtractedParams) (ext : ExtractedParams) :
    ExtractedParams :=
  { origin := spreadField ext.origin (ctx.bind (·.origin))
    destination := spreadField ext.destination (ctx.bind (·.destination))
    departureDate := spreadField ext.departureDate (ctx.bind (·.departureDate))
    returnDate := spreadField ext.returnDate (ctx.bind (·.returnDate))
    travelers := spreadField ext.travelers (ctx.bind (·.travelers))
    cabinClass := spreadField ext.cabinClass (ctx.bind (·.cabinClass))
    checkIn := spreadField ext.checkIn (ctx.bind (·.checkIn))
    checkOut := spreadField ext.checkOut (ctx.bind (·.checkOut))
    nights := spreadField ext.nights (ctx.bind (·.nights)) }

/-- Oracle for the JS `RegExp` builtins used by `intent-classifier.ts`:
`test` answers whether a pattern (given by its source text) matches the
message, and the other components return the relevant capture groups of the
extraction regexes (`none` when the regex does not match).  `dateFirst` is
`match[0]` of the first of the four date patterns that matches, and the two
count captures are already `parseInt`ed (so they are non-negative, coming
from `(\d+)` captures). -/
structure JsRegex where
  test : String → String → Bool
  fromToCaps : String → Option (String × String)
  toInCap : String → Option String
  dateFirst : String → Option String
  daysCap : String → Option Int
  travelersCap : String → Option Int

namespace IntentClassifier

/-- The `IntentType` union of `intent-classifier.ts`. -/
inductive IntentType
  | BOOKING_FLIGHT | BOOKING_HOTEL | BOOKING_TRIP
  | INFO_DESTINATION | INFO_ITINERARY | INFO_GENERAL | GENERAL
deriving DecidableEq, Repr

/-- The `ClassifiedIntent` interface (the floating-point `confidence` field
is not modelled). -/
structure ClassifiedIntent where
  type : IntentType
  params : ExtractedParams
  missingParams : List ParamKey
  followUpQuestion : Option String
deriving DecidableEq, Repr

/-- One entry of the `INTENT_PATTERNS` table. -/
structure IntentGroup where
  type : IntentType
  patterns : List String
  priority : Int
deriving DecidableEq, Repr

/-- The `INTENT_PATTERNS` table, with each regex given by its source text. -/
def INTENT_PATTERNS : List IntentGroup :=
  [⟨.BOOKING_FLIGHT,
    ["\\b(book|find|search|get|show|gave)\\s*(me\\s*)?(a\\s*)?(flights?|airfare|plane)",
     "\\bflights?\\s+(from|to)\\b",
     "\\b(fly|flying)\\s+(from|to)\\b",
     "\\bfrom\\s+\\w+\\s+to\\s+\\w+"], 10⟩,
   ⟨.BOOKING_HOTEL,
    ["\\b(book|find|search|get|show)\\s*(me\\s*)?(a\\s*)?(hotels?|rooms?|stay|accommodation)",
     "\\bhotels?\\s+(in|at|near)\\b",
     "\\bstay\\s+(in|at)\\b",
     "\\bwhere\\s+to\\s+stay\\b"], 10⟩,
   ⟨.BOOKING_TRIP,
    ["\\b(plan|book|arrange)\\s*(my|a)?\\s*trip\\b",
     "\\btrip\\s+to\\b",
     "\\bgoing\\s+to\\s+\\w+\\s+(on|next|this)"], 8⟩,
   ⟨.INFO_ITINERARY,
    ["\\bitinerary\\b",
     "\\b(plan|prepare|create|make)\\s*(me\\s*)?(a\\s*)?(trip|travel)\\s*(plan)?",
     "\\b(\\d+)\\s*(day|days|night|nights)\\s*(trip|plan|itinerary)?\\s*(in|to|for)?\\b",
     "\\bwhat\\s+to\\s+do\\s+for\\s+\\d+\\s+days\\b"], 9⟩,
   ⟨.INFO_DESTINATION,
    ["\\b(places?|spots?|attractions?|things?)\\s+(to\\s+)?(visit|see|do|explore)\\b",
     "\\btourist\\s+(places?|spots?|attractions?)\\b",
     "\\bsightseeing\\b",
     "\\bmust\\s+(see|visit)\\b",
     "\\bwhat\\s+(to\\s+do|are\\s+the)\\s+(in|at)\\b",
     "\\bbest\\s+(places?|things?|attractions?)\\b"], 9⟩,
   ⟨.INFO_GENERAL,
    ["\\b(weather|climate|temperature)\\s+(in|at|for)?\\b",
     "\\b(visa|passport)\\s+(for|to|requirements?)?\\b",
     "\\b(currency|money|exchange\\s+rate)\\b",
     "\\b(safety|safe|dangerous)\\b",
     "\\b(best\\s+time)\\s+(to\\s+visit)?\\b",
     "\\b(food|cuisine|restaurants?)\\s+(in|at)?\\b",
     "\\b(culture|customs|traditions?)\\b",
     "\\bhow\\s+is\\b",
     "\\btell\\s+me\\s+about\\b"], 7⟩,
   ⟨.GENERAL,
    ["\\b(hi|hello|hey|greetings)\\b",
     "\\b(thanks?|thank\\s+you|thx)\\b",
     "\\bhow\\s+are\\s+you\\b",
     "\\b(bye|goodbye|see\\s+you)\\b",
     "\\b(ok|okay|sure|great|nice)\\b"], 1⟩]

/-- The `REQUIRED_PARAMS` record; absent intents give `[]` (the source reads
`REQUIRED_PARAMS[detectedIntent] || []`). -/
def REQUIRED_PARAMS : IntentType → List ParamKey
  | .BOOKING_FLIGHT => [.origin, .destination, .departureDate]
  | .BOOKING_HOTEL => [.destination, .checkIn]
  | .BOOKING_TRIP => [.destination, .departureDate]
  | _ => []

/-- The `MISSING_PARAM_QUESTIONS` record; keys outside the record give
`undefined`. -/
def MISSING_PARAM_QUESTIONS : ParamKey → Option String
  | .origin => some "Where will you be traveling from?"
  | .destination => some "Where would you like to go?"
  | .departureDate =>
    some "When would you like to travel? (e.g., '15 Jan 2026', 'tomorrow', 'next week')"
  | .checkIn => some "When would you like to check in?"
  | .returnDate => some "When would you like to return? (or is this a one-way trip?)"
  | _ => none

/-- The `CITY_NAMES` list of `intent-classifier.ts`, in source order. -/
def CITY_NAMES : List String :=
  ["delhi", "new delhi", "mumbai", "bombay", "bangalore", "bengaluru",
   "chennai", "madras", "kolkata", "calcutta", "hyderabad", "pune",
   "ahmedabad", "jaipur", "lucknow", "goa", "kochi", "cochin",
   "thiruvananthapuram", "trivandrum", "guwahati", "varanasi",
   "amritsar", "chandigarh", "indore", "bhopal", "nagpur", "patna",
   "ranchi", "srinagar", "leh", "ladakh", "manali", "shimla",
   "darjeeling", "gangtok", "rishikesh", "dehradun", "agra",
   "udaipur", "jodhpur", "jaisalmer", "mysore", "ooty", "coorg",
   "pondicherry", "andaman", "lakshadweep",
   "dubai", "singapore", "bangkok", "london", "paris", "new york",
   "tokyo", "sydney", "hong kong", "kuala lumpur", "bali", "maldives",
   "mauritius", "sri lanka", "colombo", "kathmandu", "bhutan", "thimphu"]

/-- The `findCity` helper: first known city that the trimmed, lowercased
text includes (or equals). -/
def findCity (text : String) : Option String :=
  let lowerText := jsTrim (jsToLower text)
  CITY_NAMES.find? (fun city => jsIncludes lowerText city || lowerText == city)

/-- The `extractParams` of `intent-classifier.ts`: origin/destination from
the "from X to Y" captures, then a destination from the "to/in X" capture,
then any city mention; a departure date from the first matching date pattern;
nights and travellers from their count captures. -/
def extractParams (R : JsRegex) (n : Now) (message : String) : ExtractedParams :=
  let lowerMessage := jsToLower message
  let p0 : ExtractedParams := {}
  let p1 := match R.fromToCaps message with
    | some caps =>
      { p0 with origin := findCity caps.1, destination := findCity caps.2 }
    | none => p0
  let p2 :=
    if !truthyStr p1.destination then
      match R.toInCap message with
      | some cap =>
        match findCity cap with
        | some d => { p1 with destination := some d }
        | none => p1
      | none => p1
    else p1
  let p3 :=
    if !truthyStr p2.destination && !truthyStr p2.origin then
      match CITY_NAMES.find? (fun city => jsIncludes lowerMessage city) with
      | some c => { p2 with destination := some c }
      | none => p2
    else p2
  let p4 := match R.dateFirst message with
    | some fm => { p3 with departureDate := some (parseDateFromMatch n fm) }
    | none => p3
  let p5 := match R.daysCap message with
    | some k => { p4 with nights := some k }
    | none => p4
  match R.travelersCap message with
  | some k => { p5 with travelers := some k }
  | none => p5

/-- Stable insertion of one `(type, priority)` match into a list sorted by
descending priority (ties keep the earlier element first, as the ES2019+
stable `Array.sort` does). -/
def insertDesc (x : IntentType × Int) :
    List (IntentType × Int) → List (IntentType × Int)
  | [] => [x]
  | y :: ys => if x.2 ≥ y.2 then x :: y :: ys else y :: insertDesc x ys

/-- Stable sort by descending priority
(`matches.sort((a, b) => b.priority - a.priority)`). -/
def sortDesc (l : List (IntentType × Int)) : List (IntentType × Int) :=
  l.foldr insertDesc []

/-- Inner loop of `classifyIntent` over one pattern group: the group matches
when some of its regexes tests true on the message (the `break` after the
first hit makes each group count once). -/
def groupMatches (R : JsRegex) (message : String) (g : IntentGroup) : Bool :=
  g.patterns.any (fun p => R.test p message)

/-- The `classifyIntent` of `intent-classifier.ts`. -/
def classifyIntent (R : JsRegex) (n : Now) (message : String)
    (existingContext : Option ExtractedParams) : ClassifiedIntent :=
  let matchList := INTENT_PATTERNS.filterMap (fun g =>
    if groupMatches R message g then some (g.type, g.priority)
    else none)
  let sorted := sortDesc matchList
  let detectedIntent := match sorted with
    | [] => IntentType.GENERAL
    | m :: _ => m.1
  let extractedParams := extractParams R n message
  let mergedParams := spreadParams existingContext extractedParams
  let requiredParams := REQUIRED_PARAMS detectedIntent
  let missingParams := requiredParams.filter (fun k => !keyTruthy mergedParams k)
  let followUpQuestion := match missingParams with
    | [] => none
    | k :: _ => MISSING_PARAM_QUESTIONS k
  { type := detectedIntent
    params := mergedParams
    missingParams := missingParams
    followUpQuestion := followUpQuestion }

end IntentClassifier

/-! Embedding of `chat-handler.ts`.  Handlers return an
`Except Unit ChatResponse` (an `Except.error` is an uncaught JS exception
propagating to the route) together with the list of external calls
performed.  The plucking of fields out of the raw Amadeus payload
(`transformFlightResults`) and the two `Date`/`URL` display helpers are
platform-level string munging and are left as oracle components. -/

namespace ChatHandler

open IntentClassifier

/-- JS `str.charAt(0).toUpperCase() + str.slice(1).toLowerCase()`. -/
def capitalize (s : String) : String :=
  match s.toList with
  | [] => ""
  | c :: t => String.mk (upperChar c :: t.map lowerChar)

/-- JS `s.substring(0, n)`. -/
def jsTake (s : String) (n : Nat) : String :=
  String.mk (s.toList.take n)

/-- JS `s.repeat(n)` (building the star rating strings). -/
def strRepeat (s : String) (n : Nat) : String :=
  String.join (List.replicate n s)

/-- A result card (`SearchResultItem`); `details` is a string record. -/
structure SearchResultItem where
  type : String
  id : String
  title : String
  subtitle : String
  price : Option Int := none
  details : List (String × String) := []
  url : Option String := none
deriving DecidableEq, Repr

/-- A web search source (`WebSource`). -/
structure WebSource where
  title : String
  url : String
  content : String
deriving DecidableEq, Repr

/-- Answer plus sources coming back from `searchWeb`. -/
structure WebSearchResult where
  answer : Option String := none
  results : List WebSource := []
deriving DecidableEq, Repr

/-- The `ChatResponse` interface of `chat-handler.ts`. -/
structure ChatResponse where
  message : String
  intent : IntentType
  searchResults : Option (List SearchResultItem) := none
  webSources : Option (List WebSource) := none
  state : ExtractedParams
  needsMoreInfo : Bool
deriving DecidableEq, Repr

/-- Arguments of the `amadeusAPI.searchFlights` call. -/
structure FlightQuery where
  origin : String
  destination : String
  departureDate : Option String
  adults : Int
deriving DecidableEq, Repr

/-- One external API call performed by a handler. -/
inductive ExtCall
  | amadeus (q : FlightQuery)
  | tavilySearch (query : String)
  | braveSearch (query : String)
  | openai
deriving DecidableEq, Repr

/-- Which API keys are present in the environment. -/
structure Env where
  openaiKey : Bool
  tavilyKey : Bool
  braveKey : Bool
deriving DecidableEq, Repr

/-- Oracles for the external services and the two platform display helpers:
`amadeusSearch`/`tavily`/`brave` return `Except.error` to model a rejected
promise, `openaiGeneral`/`openaiItin` are the outcomes of the one OpenAI
completion each handler makes, `transformFlights` is the payload-plucking
`transformFlightResults`, `hostname` is `new URL(u).hostname` and
`displayDate` is `formatDisplayDate`. -/
structure Oracles (FD : Type) where
  amadeusSearch : FlightQuery → Except Unit FD
  transformFlights : FD → ExtractedParams → List SearchResultItem
  tavily : String → Except Unit WebSearchResult
  brave : String → Except Unit (List WebSource)
  openaiGeneral : Except Unit (Option String)
  openaiItin : Except Unit (Option String)
  hostname : String → String
  displayDate : Option String → String

/-- The `cityToIATA` map of `chat-handler.ts`. -/
def cityToIATA : List (String × String) :=
  [("delhi", "DEL"), ("new delhi", "DEL"), ("mumbai", "BOM"), ("bombay", "BOM"),
   ("bangalore", "BLR"), ("bengaluru", "BLR"), ("chennai", "MAA"), ("madras", "MAA"),
   ("kolkata", "CCU"), ("calcutta", "CCU"), ("hyderabad", "HYD"), ("pune", "PNQ"),
   ("ahmedabad", "AMD"), ("jaipur", "JAI"), ("lucknow", "LKO"), ("goa", "GOI"),
   ("kochi", "COK"), ("cochin", "COK"), ("guwahati", "GAU"), ("varanasi", "VNS"),
   ("amritsar", "ATQ"), ("chandigarh", "IXC"), ("indore", "IDR"), ("bhopal", "BHO"),
   ("nagpur", "NAG"), ("patna", "PAT"), ("ranchi", "IXR"), ("srinagar", "SXR"),
   ("leh", "IXL"), ("dehradun", "DED"), ("agra", "AGR"), ("udaipur", "UDR"),
   ("jodhpur", "JDH"), ("dubai", "DXB"), ("singapore", "SIN"), ("bangkok", "BKK"),
   ("london", "LHR"), ("paris", "CDG"), ("new york", "JFK"), ("tokyo", "NRT")]

/-- The `getMissingParamMessage` helper: fixed question per field, with a
generic fallback for fields outside the map. -/
def getMissingParamMessage : ParamKey → String
  | .origin => "Where will you be traveling from?"
  | .destination => "Where would you like to go?"
  | .departureDate => "When would you like to travel?"
  | .checkIn => "When would you like to check in?"
  | _ => "Could you provide more details?"

/-- The hard-coded `generateFallbackFlights` list. -/
def generateFallbackFlights (params : ExtractedParams) : List SearchResultItem :=
  let prices : List Int := [9055, 9313, 10798, 12500, 14200]
  let times : List (String × String) :=
    [("06:15", "09:20"), ("10:30", "13:45"), ("14:00", "17:15"),
     ("18:30", "21:45"), ("21:00", "00:15")]
  let airlines := ["Air India", "IndiGo", "Vistara", "SpiceJet", "Akasa Air"]
  let codes := ["AI", "6E", "UK", "SG", "QP"]
  (List.range prices.length).map (fun i =>
    { type := "flight"
      id := "fallback-flight-" ++ toString i
      title := capitalize (jsOrDefStr params.origin "DEL") ++ " → " ++
        capitalize (jsOrDefStr params.destination "BLR")
      subtitle := airlines.getD i ""
      price := some (prices.getD i 0)
      details :=
        [("departure", (times.getD i ("", "")).1),
         ("arrival", (times.getD i ("", "")).2),
         ("duration", "2h 30m"),
         ("stops", if i % 2 == 0 then "Non-stop" else "1 stop"),
         ("flightNumber", codes.getD i "" ++ " " ++ toString (1000 + i * 123))] })

/-- The hard-coded `generateHotelResults` list (no external call). -/
def generateHotelResults (destination : String) : List SearchResultItem :=
  let hotels : List (String × Nat × Int) :=
    [("Taj Hotel", 5, 12500), ("Marriott", 5, 9800), ("Hyatt Regency", 4, 7500),
     ("Radisson Blu", 4, 5500), ("Holiday Inn", 3, 3500)]
  (List.range hotels.length).map (fun i =>
    let h := hotels.getD i ("", 0, 0)
    { type := "hotel"
      id := "hotel-" ++ toString i
      title := h.1 ++ " " ++ capitalize destination
      subtitle := strRepeat "⭐" h.2.1 ++ " • " ++ destination
      price := some h.2.2
      details := [("rating", toString h.2.1), ("location", destination)] })

/-- The `searchWeb` helper: Tavily when its key is present, else Brave, else
no results; a throwing call is caught and yields no results. -/
def searchWeb {FD : Type} (env : Env) (O : Oracles FD) (query destination : String) :
    WebSearchResult × List ExtCall :=
  if env.tavilyKey then
    let q := query ++ " " ++ destination ++ " travel"
    match O.tavily q with
    | .ok r => (r, [.tavilySearch q])
    | .error _ => ({ answer := none, results := [] }, [.tavilySearch q])
  else if env.braveKey then
    let q := query ++ " " ++ destination
    match O.brave q with
    | .ok rs => ({ answer := none, results := rs }, [.braveSearch q])
    | .error _ => ({ answer := none, results := [] }, [.braveSearch q])
  else ({ answer := none, results := [] }, [])

/-- The `handleFlightBooking` of `chat-handler.ts`.  With a missing required
parameter it asks the follow-up question and performs no call.  Otherwise it
searches Amadeus and falls back to the hard-coded flights if the search
throws; a missing origin or destination (reachable via the trip handler,
whose required set has no origin) makes both the `try` body and the message
interpolation of the `catch` block dereference `undefined`, so the exception
propagates. -/
def handleFlightBooking {FD : Type} (O : Oracles FD) (classified : ClassifiedIntent) :
    Except Unit ChatResponse × List ExtCall :=
  match classified.missingParams with
  | k :: _ =>
    (.ok { message := classified.followUpQuestion.getD
            ("I need more information to find flights. " ++ getMissingParamMessage k)
           intent := .BOOKING_FLIGHT
           state := classified.params
           needsMoreInfo := true }, [])
  | [] =>
    let params := classified.params
    match params.origin, params.destination with
    | some o, some d =>
      let originCode := (jsLookup cityToIATA (jsToLower o)).getD (jsToUpper o)
      let destCode := (jsLookup cityToIATA (jsToLower d)).getD (jsToUpper d)
      let q : FlightQuery :=
        { origin := originCode, destination := destCode
          departureDate := params.departureDate, adults := jsOrOne params.travelers }
      match O.amadeusSearch q with
      | .ok data =>
        (.ok { message := "Here are the available flights from " ++ capitalize o ++
                " to " ++ capitalize d ++ " on " ++ O.displayDate params.departureDate ++
                ". Click \"Book\" on any flight to proceed! ✈️"
               intent := .BOOKING_FLIGHT
               searchResults := some (O.transformFlights data params)
               state := params
               needsMoreInfo := false }, [.amadeus q])
      | .error _ =>
        (.ok { message := "I found some flight options from " ++ capitalize o ++
                " to " ++ capitalize d ++ ":"
               intent := .BOOKING_FLIGHT
               searchResults := some (generateFallbackFlights params)
               state := params
               needsMoreInfo := false }, [.amadeus q])
    | _, _ => (.error (), [])

/-- The `handleHotelBooking` of `chat-handler.ts`: question when a required
parameter is missing, otherwise the hard-coded hotel list — no external
call on either path. -/
def handleHotelBooking (classified : ClassifiedIntent) :
    Except Unit ChatResponse × List ExtCall :=
  match classified.missingParams with
  | k :: _ =>
    (.ok { message := classified.followUpQuestion.getD
            ("I need more information to find hotels. " ++ getMissingParamMessage k)
           intent := .BOOKING_HOTEL
           state := classified.params
           needsMoreInfo := true }, [])
  | [] =>
    match classified.params.destination with
    | some d =>
      (.ok { message := "Here are the best hotels in " ++ capitalize d ++
              ". Click \"Book\" to reserve! 🏨"
             intent := .BOOKING_HOTEL
             searchResults := some (generateHotelResults d)
             state := classified.params
             needsMoreInfo := false }, [])
    | none => (.error (), [])

/-- The `handleTripBooking` of `chat-handler.ts`: question when a required
parameter is missing, otherwise the flight handler result (first 3 cards)
plus the hard-coded hotels (first 2). -/
def handleTripBooking {FD : Type} (O : Oracles FD) (classified : ClassifiedIntent) :
    Except Unit ChatResponse × List ExtCall :=
  match classified.missingParams with
  | _ :: _ =>
    (.ok { message := classified.followUpQuestion.getD
            ("Let's plan your trip! " ++
              getMissingParamMessage (classified.missingParams.headD .origin))
           intent := .BOOKING_TRIP
           state := classified.params
           needsMoreInfo := true }, [])
  | [] =>
    let fr := handleFlightBooking O classified
    match fr.1 with
    | .error _ => (.error (), fr.2)
    | .ok flightResponse =>
      match classified.params.destination with
      | none => (.error (), fr.2)
      | some d =>
        let hotelResults := generateHotelResults d
        let combined := (flightResponse.searchResults.getD []).take 3 ++ hotelResults.take 2
        (.ok { message := "Here are options for your trip to " ++ capitalize d ++ ":"
               intent := .BOOKING_TRIP
               searchResults := some combined
               state := classified.params
               needsMoreInfo := false }, fr.2)

/-- The `handleInfoQuery` of `chat-handler.ts`. -/
def handleInfoQuery {FD : Type} (env : Env) (O : Oracles FD) (message : String)
    (classified : ClassifiedIntent) : Except Unit ChatResponse × List ExtCall :=
  if !truthyStr classified.params.destination then
    (.ok { message := "Which destination would you like to know about?"
           intent := classified.type
           state := classified.params
           needsMoreInfo := true }, [])
  else
    let destination := classified.params.destination.getD ""
    let ws := searchWeb env O message destination
    let infoResults := (ws.1.results.take 3).enum.map (fun p =>
      ({ type := "info"
         id := "info-" ++ toString p.1
         title := p.2.title
         subtitle := jsTake p.2.content 150 ++ "..."
         details := [("source", O.hostname p.2.url)]
         url := some p.2.url } : SearchResultItem))
    let responseMessage :=
      if truthyStr ws.1.answer then
        ws.1.answer.getD "" ++ "\n\nHere are some helpful resources:"
      else "Here's what I found about " ++ capitalize destination ++ ":"
    (.ok { message := responseMessage
           intent := classified.type
           searchResults := some infoResults
           webSources := some ws.1.results
           state := classified.params
           needsMoreInfo := false }, ws.2)

/-- The `handleItineraryRequest` of `chat-handler.ts`: web search first, then
an OpenAI completion when the key is present; on a thrown completion (or no
key) it falls back to `handleInfoQuery`. -/
def handleItineraryRequest {FD : Type} (env : Env) (O : Oracles FD) (message : String)
    (classified : ClassifiedIntent) : Except Unit ChatResponse × List ExtCall :=
  if !truthyStr classified.params.destination then
    (.ok { message := "Which destination would you like me to plan an itinerary for?"
           intent := .INFO_ITINERARY
           state := classified.params
           needsMoreInfo := true }, [])
  else
    let destination := classified.params.destination.getD ""
    let ws := searchWeb env O
      (toString (jsOrDefInt classified.params.nights 3) ++
        " day itinerary " ++ destination) destination
    if env.openaiKey then
      match O.openaiItin with
      | .ok content =>
        let itinerary := jsOrDefStr content ""
        let infoResults := (ws.1.results.take 2).enum.map (fun p =>
          ({ type := "info"
             id := "info-" ++ toString p.1
             title := p.2.title
             subtitle := jsTake p.2.content 100 ++ "..."
             details := [("source", O.hostname p.2.url)]
             url := some p.2.url } : SearchResultItem))
        (.ok { message := itinerary
               intent := .INFO_ITINERARY
               searchResults := if infoResults.length > 0 then some infoResults else none
               webSources := some ws.1.results
               state := classified.params
               needsMoreInfo := false }, ws.2 ++ [.openai])
      | .error _ =>
        let r := handleInfoQuery env O message classified
        (r.1, ws.2 ++ [.openai] ++ r.2)
    else
      let r := handleInfoQuery env O message classified
      (r.1, ws.2 ++ r.2)

/-- The fixed fallback reply of `handleGeneralChat` (returned when the
OpenAI key is missing or the completion call throws). -/
def generalChatFallback (params : ExtractedParams) : ChatResponse :=
  { message := "I'm here to help with your travel plans! You can ask me to find flights, hotels, or get information about destinations. Where would you like to go?"
    intent := .GENERAL
    state := params
    needsMoreInfo := false }

/-- The `handleGeneralChat` of `chat-handler.ts`. -/
def handleGeneralChat {FD : Type} (env : Env) (O : Oracles FD) (_message : String)
    (classified : ClassifiedIntent) (_history : List (String × String)) :
    Except Unit ChatResponse × List ExtCall :=
  if env.openaiKey then
    match O.openaiGeneral with
    | .ok content =>
      (.ok { message := jsOrDefStr content "How can I help you with your travel plans today?"
             intent := .GENERAL
             state := classified.params
             needsMoreInfo := false }, [.openai])
    | .error _ => (.ok (generalChatFallback classified.params), [.openai])
  else (.ok (generalChatFallback classified.params), [])

/-- The `handleChatMessage` dispatcher of `chat-handler.ts`. -/
def handleChatMessage {FD : Type} (env : Env) (O : Oracles FD) (R : JsRegex) (n : Now)
    (message : String) (history : List (String × String))
    (existingContext : Option ExtractedParams) :
    Except Unit ChatResponse × List ExtCall :=
  let classified := classifyIntent R n message existingContext
  match classified.type with
  | .BOOKING_FLIGHT => handleFlightBooking O classified
  | .BOOKING_HOTEL => handleHotelBooking classified
  | .BOOKING_TRIP => handleTripBooking O classified
  | .INFO_DESTINATION => handleInfoQuery env O message classified
  | .INFO_GENERAL => handleInfoQuery env O message classified
  | .INFO_ITINERARY => handleItineraryRequest env O message classified
  | .GENERAL => handleGeneralChat env O message classified history

end ChatHandler

/-! Embedding of `llm-intent-classifier.ts`.  The OpenAI completion (and the
JSON parsing of its reply) is an oracle delivering either the parsed
analysis object or a thrown error; the prompt construction only feeds that
call and is not modelled.  The four keyword regexes of `fallbackClassify`
are plain `\b(alt|…)\b` word alternations and are embedded exactly
(`wordAltTest`). -/

namespace LLMClassifier

/-- The `IntentType` union of `llm-intent-classifier.ts` (with
`ANSWER_FOLLOWUP`, without `BOOKING_TRIP`). -/
inductive IntentType
  | BOOKING_FLIGHT | BOOKING_HOTEL | INFO_ITINERARY | INFO_DESTINATION
  | INFO_GENERAL | ANSWER_FOLLOWUP | GENERAL
deriving DecidableEq, Repr

/-- The `ClassifiedIntent` interface of `llm-intent-classifier.ts`. -/
structure ClassifiedIntent where
  type : IntentType
  params : ExtractedParams
  missingParams : List ParamKey
  followUpQuestion : Option String
  rawAnalysis : Option String := none
deriving DecidableEq, Repr

/-- The `PreviousContext` interface. -/
structure PreviousContext where
  lastIntent : Option IntentType := none
  pendingQuestion : Option String := none
  params : Option ExtractedParams := none
deriving DecidableEq, Repr

/-- The JSON analysis object parsed out of the LLM reply (JSON `null`
values are `none`). -/
structure LLMAnalysis where
  intent : IntentType
  origin : Option String := none
  destination : Option String := none
  departureDate : Option String := none
  checkIn : Option String := none
  travelers : Option Int := none
  nights : Option Int := none
  reasoning : Option String := none
deriving DecidableEq, Repr

/-- The `getMissingParams` helper, pushing the absent (falsy) required
fields in source order. -/
def getMissingParams (intent : IntentType) (a : LLMAnalysis) : List ParamKey :=
  match intent with
  | .BOOKING_FLIGHT =>
    (if !truthyStr a.origin then [ParamKey.origin] else []) ++
    (if !truthyStr a.destination then [ParamKey.destination] else []) ++
    (if !truthyStr a.departureDate then [ParamKey.departureDate] else [])
  | .BOOKING_HOTEL =>
    (if !truthyStr a.destination then [ParamKey.destination] else []) ++
    (if !truthyStr a.checkIn then [ParamKey.checkIn] else [])
  | _ => []

/-- The `getFollowUpQuestion` helper of `llm-intent-classifier.ts`: note the
hotel-specific destination question. -/
def getFollowUpQuestion (param : ParamKey) (intent : IntentType) : String :=
  match param with
  | .origin => "Where will you be traveling from?"
  | .destination =>
    if intent == IntentType.BOOKING_HOTEL then "Which city would you like to stay in?"
    else "Where would you like to go?"
  | .departureDate => "When would you like to travel? (e.g., '15 Jan 2026')"
  | .checkIn => "When would you like to check in?"
  | _ => "Could you provide more details?"

/-- Word boundary before the current position: start of text or a non-word
character. -/
def prevBoundary : Option Char → Bool
  | none => true
  | some c => !isWordChar c

/-- Word boundary after consuming `a` from `l`: end of text or a non-word
character. -/
def afterBoundary (a l : List Char) : Bool :=
  match l.drop a.length with
  | [] => true
  | c :: _ => !isWordChar c

/-- Does one of the alternatives occur at the head of `l`, with a word
boundary after it? -/
def wbHere (alts : List (List Char)) (l : List Char) : Bool :=
  alts.any (fun a => prefChars a l && afterBoundary a l)

/-- Scan for an alternative occurring at a position with word boundaries on
both sides. -/
def wbScan (alts : List (List Char)) : Option Char → List Char → Bool
  | _, [] => false
  | prev, c :: t =>
    (prevBoundary prev && wbHere alts (c :: t)) || wbScan alts (some c) t

/-- Case-insensitive test of a `\b(alt|…|alt)\b` regex (each alternative
starts and ends with a word character, as all of them here do). -/
def wordAltTest (alts : List String) (message : String) : Bool :=
  wbScan (alts.map (·.toList)) none (jsToLower message).toList

/-- The `fallbackClassify` of `llm-intent-classifier.ts`, used when the LLM
call throws: keyword classification with empty params.  The `?`-quantified
regex atoms are expanded into their two alternatives. -/
def fallbackClassify (message : String) : ClassifiedIntent :=
  let type : IntentType :=
    if wordAltTest ["flight", "fly", "flying", "flights"] message then .BOOKING_FLIGHT
    else if wordAltTest ["hotel", "stay", "accommodation", "room"] message then .BOOKING_HOTEL
    else if wordAltTest ["itinerary", "itinary", "travel plan", "day plan"] message then
      .INFO_ITINERARY
    else if wordAltTest ["places", "place", "visit", "attractions", "attraction",
        "things to do"] message then .INFO_DESTINATION
    else .GENERAL
  { type := type, params := {}, missingParams := [], followUpQuestion := none }

/-- JS `x || undefined` on an optional string (the params normalisation). -/
def normStr (v : Option String) : Option String :=
  if truthyStr v then v else none

/-- JS `x || undefined` on an optional number. -/
def normInt (v : Option Int) : Option Int :=
  if truthyInt v then v else none

/-- The `classifyIntentWithLLM` of `llm-intent-classifier.ts`: on a thrown
call (or unparsable reply) it falls back to keyword classification,
otherwise it normalises the analysis params and computes the missing
required fields and follow-up question.  The `previousContext` argument
only feeds the prompt of the oracle call. -/
def classifyIntentWithLLM (llm : Except Unit LLMAnalysis) (message : String)
    (_previousContext : Option PreviousContext) : ClassifiedIntent :=
  match llm with
  | .error _ => fallbackClassify message
  | .ok analysis =>
    let missingParams := getMissingParams analysis.intent analysis
    let followUpQuestion := match missingParams with
      | [] => none
      | k :: _ => some (getFollowUpQuestion k analysis.intent)
    { type := analysis.intent
      params :=
        { origin := normStr analysis.origin
          destination := normStr analysis.destination
          departureDate := normStr analysis.departureDate
          checkIn := normStr analysis.checkIn
          travelers := normInt analysis.travelers
          nights := normInt analysis.nights }
      missingParams := missingParams
      followUpQuestion := followUpQuestion
      rawAnalysis := analysis.reasoning }

/-- The `mergeParams` of `llm-intent-classifier.ts`: new truthy values win,
otherwise the existing ones; the result never carries `cabinClass` (the
source object literal omits it). -/
def mergeParams (existing : Option ExtractedParams) (newParams : ExtractedParams) :
    ExtractedParams :=
  { origin := jsOrStr newParams.origin (existing.bind (·.origin))
    destination := jsOrStr newParams.destination (existing.bind (·.destination))
    departureDate := jsOrStr newParams.departureDate (existing.bind (·.departureDate))
    returnDate := jsOrStr newParams.returnDate (existing.bind (·.returnDate))
    travelers := jsOrInt newParams.travelers (existing.bind (·.travelers))
    cabinClass := none
    checkIn := jsOrStr newParams.checkIn (existing.bind (·.checkIn))
    checkOut := jsOrStr newParams.checkOut (existing.bind (·.checkOut))
    nights := jsOrInt newParams.nights (existing.bind (·.nights)) }

end LLMClassifier

/-! Embedding of `smart-chat-handler.ts`. -/

namespace SmartChat

open LLMClassifier
open ChatHandler (SearchResultItem WebSource WebSearchResult FlightQuery ExtCall Env
  capitalize jsTake strRepeat)

/-- The `ChatResponse` interface of `smart-chat-handler.ts` (with
`pendingQuestion`). -/
structure ChatResponse where
  message : String
  intent : IntentType
  searchResults : Option (List SearchResultItem) := none
  webSources : Option (List WebSource) := none
  state : ExtractedParams
  needsMoreInfo : Bool
  pendingQuestion : Option String := none
deriving DecidableEq, Repr

/-- The `ConversationState` interface. -/
structure ConversationState where
  lastIntent : Option IntentType := none
  pendingQuestion : Option String := none
  params : Option ExtractedParams := none
deriving DecidableEq, Repr

/-- Oracles for the external services used by the smart handler: the LLM
classification call, the Amadeus search, Tavily, the two OpenAI completions
and the two platform display helpers. -/
structure Oracles (FD : Type) where
  llm : Except Unit LLMAnalysis
  amadeusSearch : FlightQuery → Except Unit FD
  transformFlights : FD → ExtractedParams → List SearchResultItem
  tavily : String → Except Unit WebSearchResult
  openaiGeneral : Except Unit (Option String)
  openaiItin : Except Unit (Option String)
  hostname : String → String
  displayDate : Option String → String

/-- The `cityToIATA` map of `smart-chat-handler.ts`. -/
def cityToIATA : List (String × String) :=
  [("delhi", "DEL"), ("new delhi", "DEL"), ("mumbai", "BOM"), ("bangalore", "BLR"),
   ("bengaluru", "BLR"), ("chennai", "MAA"), ("kolkata", "CCU"), ("hyderabad", "HYD"),
   ("pune", "PNQ"), ("ahmedabad", "AMD"), ("jaipur", "JAI"), ("lucknow", "LKO"),
   ("goa", "GOI"), ("kochi", "COK"), ("guwahati", "GAU"), ("varanasi", "VNS"),
   ("amritsar", "ATQ"), ("chandigarh", "IXC"), ("indore", "IDR"), ("srinagar", "SXR"),
   ("leh", "IXL"), ("udaipur", "UDR"), ("jodhpur", "JDH"), ("dubai", "DXB"),
   ("singapore", "SIN"), ("bangkok", "BKK"), ("london", "LHR"), ("paris", "CDG")]

/-- The `getIATACode` helper: map hit or the first three uppercased
characters. -/
def getIATACode (city : String) : String :=
  (jsLookup cityToIATA (jsToLower city)).getD (jsTake (jsToUpper city) 3)

/-- The `getQuestion` helper of `smart-chat-handler.ts`. -/
def getQuestion : ParamKey → String
  | .origin => "Where will you be traveling from?"
  | .destination => "Where would you like to go?"
  | .departureDate => "When would you like to travel? (e.g., '15 Jan 2026')"
  | .checkIn => "When would you like to check in? (e.g., '15 Jan 2026')"
  | _ => "Could you provide more details?"

/-- The hard-coded fallback flights of `smart-chat-handler.ts`. -/
def generateFallbackFlights (params : ExtractedParams) : List SearchResultItem :=
  let data : List (String × String × Int × String × String) :=
    [("Air India", "AI", 7312, "05:45", "08:35"),
     ("IndiGo", "6E", 6890, "10:30", "13:15"),
     ("Vistara", "UK", 8500, "14:00", "16:45"),
     ("SpiceJet", "SG", 5999, "18:30", "21:15")]
  (List.range data.length).map (fun i =>
    let f := data.getD i ("", "", 0, "", "")
    { type := "flight"
      id := "flight-" ++ toString i
      title := capitalize (jsOrDefStr params.origin "Origin") ++ " → " ++
        capitalize (jsOrDefStr params.destination "Dest")
      subtitle := f.1
      price := some f.2.2.1
      details :=
        [("departure", f.2.2.2.1), ("arrival", f.2.2.2.2),
         ("duration", "2h 45m"),
         ("stops", if i % 2 == 0 then "Non-stop" else "1 stop"),
         ("flightNumber", f.2.1 ++ " " ++ toString (1000 + i * 100))] })

/-- The hard-coded hotel list of `smart-chat-handler.ts` (no external
call). -/
def generateHotelResults (destination : String) : List SearchResultItem :=
  let hotels : List (String × Nat × Int) :=
    [("Taj Hotel", 5, 12500), ("Marriott", 5, 9800), ("Hyatt Regency", 4, 7500),
     ("Radisson Blu", 4, 5500), ("Holiday Inn", 3, 3500)]
  (List.range hotels.length).map (fun i =>
    let h := hotels.getD i ("", 0, 0)
    { type := "hotel"
      id := "hotel-" ++ toString i
      title := h.1 ++ " " ++ capitalize destination
      subtitle := strRepeat "⭐" h.2.1 ++ " • " ++ capitalize destination
      price := some h.2.2
      details := [("rating", toString h.2.1), ("location", destination)] })

/-- The smart `handleFlightBooking`: recomputes the missing required fields
itself, asks the first missing one (echoing it as `pendingQuestion`), and
otherwise searches Amadeus with the fallback list on a thrown call. -/
def handleFlightBooking {FD : Type} (O : Oracles FD) (params : ExtractedParams)
    (_missingParams : List ParamKey) (_followUpQuestion : Option String) :
    ChatResponse × List ExtCall :=
  let required : List ParamKey := [.origin, .destination, .departureDate]
  let stillMissing := required.filter (fun p => !keyTruthy params p)
  match stillMissing with
  | k :: _ =>
    let question := getQuestion k
    ({ message := question
       intent := .BOOKING_FLIGHT
       state := params
       needsMoreInfo := true
       pendingQuestion := some question }, [])
  | [] =>
    let o := params.origin.getD ""
    let d := params.destination.getD ""
    let q : FlightQuery :=
      { origin := getIATACode o, destination := getIATACode d
        departureDate := params.departureDate, adults := jsOrOne params.travelers }
    match O.amadeusSearch q with
    | .ok data =>
      ({ message := "Here are flights from " ++ capitalize o ++ " to " ++ capitalize d ++
          " on " ++ O.displayDate params.departureDate ++ ". Click \"Book\" to proceed! ✈️"
         intent := .BOOKING_FLIGHT
         searchResults := some (O.transformFlights data params)
         state := params
         needsMoreInfo := false }, [.amadeus q])
    | .error _ =>
      ({ message := "I found flights from " ++ capitalize o ++ " to " ++ capitalize d ++ ":"
         intent := .BOOKING_FLIGHT
         searchResults := some (generateFallbackFlights params)
         state := params
         needsMoreInfo := false }, [.amadeus q])

/-- The smart `handleHotelBooking`: hard-coded hotel results, no external
call. -/
def handleHotelBooking {FD : Type} (O : Oracles FD) (params : ExtractedParams)
    (_missingParams : List ParamKey) (_followUpQuestion : Option String) :
    ChatResponse × List ExtCall :=
  let required : List ParamKey := [.destination, .checkIn]
  let stillMissing := required.filter (fun p => !keyTruthy params p)
  match stillMissing with
  | k :: _ =>
    let question := getQuestion k
    ({ message := "Looking for hotels 🏨\n\n" ++ question
       intent := .BOOKING_HOTEL
       state := params
       needsMoreInfo := true
       pendingQuestion := some question }, [])
  | [] =>
    ({ message := "Here are the best hotels in " ++ capitalize (params.destination.getD "") ++
        " for " ++ O.displayDate params.checkIn ++ ":"
       intent := .BOOKING_HOTEL
       searchResults := some (generateHotelResults (params.destination.getD ""))
       state := params
       needsMoreInfo := false }, [])

/-- The smart `handleItinerary`: without an OpenAI key the client
constructor throws and the catch returns the fixed fallback before any web
search; with a key it searches Tavily (its own try) and completes, with the
fixed fallback on a thrown completion. -/
def handleItinerary {FD : Type} (env : Env) (O : Oracles FD) (_message : String)
    (params : ExtractedParams) : ChatResponse × List ExtCall :=
  if !truthyStr params.destination then
    ({ message := "Which destination would you like me to create an itinerary for?"
       intent := .INFO_ITINERARY
       state := params
       needsMoreInfo := true
       pendingQuestion := some "destination" }, [])
  else
    let destination := params.destination.getD ""
    let days := jsOrDefInt params.nights 3
    let fallbackResp : ChatResponse :=
      { message := "I'd recommend " ++ toString days ++ " days in " ++ capitalize destination ++
          " to explore the major attractions. Would you like me to search for more specific information?"
        intent := .INFO_ITINERARY
        state := params
        needsMoreInfo := false }
    if !env.openaiKey then (fallbackResp, [])
    else
      let ws : List ExtCall :=
        if env.tavilyKey then
          [.tavilySearch (toString days ++ " day itinerary " ++ destination ++ " travel guide")]
        else []
      match O.openaiItin with
      | .ok content =>
        ({ message := jsOrDefStr content
            ("Here's a " ++ toString days ++ "-day plan for " ++ destination)
           intent := .INFO_ITINERARY
           state := params
           needsMoreInfo := false }, ws ++ [.openai])
      | .error _ => (fallbackResp, ws ++ [.openai])

/-- The smart `handleDestinationInfo`. -/
def handleDestinationInfo {FD : Type} (env : Env) (O : Oracles FD) (message : String)
    (params : ExtractedParams) : ChatResponse × List ExtCall :=
  if !truthyStr params.destination then
    ({ message := "Which destination would you like to know about?"
       intent := .INFO_DESTINATION
       state := params
       needsMoreInfo := true }, [])
  else
    let destination := params.destination.getD ""
    let tv : (String × List WebSource) × List ExtCall :=
      if env.tavilyKey then
        let q := message ++ " " ++ destination
        match O.tavily q with
        | .ok search => ((jsOrDefStr search.answer "", search.results), [.tavilySearch q])
        | .error _ => (("", []), [.tavilySearch q])
      else (("", []), [])
    let answer := tv.1.1
    let webSources := tv.1.2
    let infoResults := (webSources.take 3).enum.map (fun p =>
      ({ type := "info"
         id := "info-" ++ toString p.1
         title := p.2.title
         subtitle := jsTake p.2.content 120 ++ "..."
         details := [("source", O.hostname p.2.url)]
         url := some p.2.url } : SearchResultItem))
    ({ message := if answer == "" then
        "Here's what I found about " ++ capitalize destination ++ ":" else answer
       intent := .INFO_DESTINATION
       searchResults := some infoResults
       webSources := some webSources
       state := params
       needsMoreInfo := false }, tv.2)

/-- The smart `handleGeneralInfo` just delegates to the destination info
handler. -/
def handleGeneralInfo {FD : Type} (env : Env) (O : Oracles FD) (message : String)
    (params : ExtractedParams) : ChatResponse × List ExtCall :=
  handleDestinationInfo env O message params

/-- The fixed fallback reply of the smart `handleGeneral`. -/
def generalFallback : ChatResponse :=
  { message := "I'm here to help with your travel plans! Ask me about flights, hotels, or destinations."
    intent := .GENERAL
    state := {}
    needsMoreInfo := false }

/-- The smart `handleGeneral`: one OpenAI completion, with the fixed
fallback when the key is missing (the client constructor throws) or the
completion throws. -/
def handleGeneral {FD : Type} (env : Env) (O : Oracles FD) (_message : String)
    (_history : List (String × String)) : ChatResponse × List ExtCall :=
  if !env.openaiKey then (generalFallback, [])
  else
    match O.openaiGeneral with
    | .ok content =>
      ({ message := jsOrDefStr content "How can I help with your travel plans?"
         intent := .GENERAL
         state := {}
         needsMoreInfo := false }, [.openai])
    | .error _ => (generalFallback, [.openai])

/-- Step 3 of `handleSmartChat`: the routing switch on the final intent. -/
def routeIntent {FD : Type} (env : Env) (O : Oracles FD) (message : String)
    (history : List (String × String)) (finalIntent : IntentType)
    (finalParams : ExtractedParams) (classified : ClassifiedIntent) :
    ChatResponse × List ExtCall :=
  match finalIntent with
  | .BOOKING_FLIGHT => handleFlightBooking O finalParams [] classified.followUpQuestion
  | .BOOKING_HOTEL =>
    handleHotelBooking O finalParams classified.missingParams classified.followUpQuestion
  | .INFO_ITINERARY => handleItinerary env O message finalParams
  | .INFO_DESTINATION => handleDestinationInfo env O message finalParams
  | .INFO_GENERAL => handleGeneralInfo env O message finalParams
  | _ => handleGeneral env O message history

/-- Does the intent name start with `BOOKING_`? -/
def startsBooking : IntentType → Bool
  | .BOOKING_FLIGHT | .BOOKING_HOTEL => true
  | _ => false

/-- Does the intent name start with `INFO_`? -/
def startsInfo : IntentType → Bool
  | .INFO_ITINERARY | .INFO_DESTINATION | .INFO_GENERAL => true
  | _ => false

/-- The previous-context record `handleSmartChat` passes to the classifier. -/
def contextOf (existingState : Option ConversationState) : PreviousContext :=
  { lastIntent := existingState.bind (·.lastIntent)
    pendingQuestion := existingState.bind (·.pendingQuestion)
    params := existingState.bind (·.params) }

/-- The `handleSmartChat` of `smart-chat-handler.ts`. -/
def handleSmartChat {FD : Type} (env : Env) (O : Oracles FD) (message : String)
    (history : List (String × String)) (existingState : Option ConversationState) :
    ChatResponse × List ExtCall :=
  let classified := classifyIntentWithLLM O.llm message (some (contextOf existingState))
  if classified.type == IntentType.ANSWER_FOLLOWUP then
    match existingState.bind (·.lastIntent) with
    | some prev =>
      let finalParams := mergeParams (existingState.bind (·.params)) classified.params
      routeIntent env O message history prev finalParams classified
    | none =>
      ({ message := "I noticed you provided some details! Are you looking for flights, hotels, or information about a destination?"
         intent := .GENERAL
         state := classified.params
         needsMoreInfo := true }, [])
  else
    let finalParams :=
      match existingState.bind (·.params) with
      | none => classified.params
      | some prevParams =>
        let lastB := match existingState.bind (·.lastIntent) with
          | some i => startsBooking i
          | none => false
        let lastI := match existingState.bind (·.lastIntent) with
          | some i => startsInfo i
          | none => false
        let sameIntentType :=
          (lastB && startsBooking classified.type) || (lastI && startsInfo classified.type)
        if !sameIntentType then
          if truthyStr prevParams.destination && !truthyStr classified.params.destination then
            { classified.params with destination := prevParams.destination }
          else classified.params
        else classified.params
    routeIntent env O message history classified.type finalParams classified

end SmartChat

/-! Specification-side definitions and concrete instances used by the claim
theorems. -/

namespace ConvContext

/-- Specification of the amended claim C1 for `mergeContext`: identity
fields stay, each slot field is the new value exactly when the new context
provides a truthy one, and metadata objects are spread-merged. -/
def mergeContextSpec (e : ConversationContext) (nc : PartialContext) :
    ConversationContext :=
  { id := e.id
    chat_id := e.chat_id
    user_id := e.user_id
    intent := if truthyStr nc.intent then nc.intent else e.intent
    origin := if truthyStr nc.origin then nc.origin else e.origin
    destination := if truthyStr nc.destination then nc.destination else e.destination
    departure_date :=
      if truthyStr nc.departure_date then nc.departure_date else e.departure_date
    return_date := if truthyStr nc.return_date then nc.return_date else e.return_date
    passengers := if truthyInt nc.passengers then nc.passengers else e.passengers
    check_in := if truthyStr nc.check_in then nc.check_in else e.check_in
    check_out := if truthyStr nc.check_out then nc.check_out else e.check_out
    rooms := if truthyInt nc.rooms then nc.rooms else e.rooms
    metadata := some (spreadMerge (e.metadata.getD []) (nc.metadata.getD []))
    created_at := e.created_at
    updated_at := e.updated_at }

end ConvContext

namespace LLMClassifier

/-- Specification of the amended claim C1 for `mergeParams`: each field is
the new value exactly when it is truthy, otherwise the stored one
(`cabinClass` is never produced). -/
def mergeParamsSpec (existing : Option ExtractedParams) (newParams : ExtractedParams) :
    ExtractedParams :=
  { origin := if truthyStr newParams.origin then newParams.origin
      else existing.bind (·.origin)
    destination := if truthyStr newParams.destination then newParams.destination
      else existing.bind (·.destination)
    departureDate := if truthyStr newParams.departureDate then newParams.departureDate
      else existing.bind (·.departureDate)
    returnDate := if truthyStr newParams.returnDate then newParams.returnDate
      else existing.bind (·.returnDate)
    travelers := if truthyInt newParams.travelers then newParams.travelers
      else existing.bind (·.travelers)
    cabinClass := none
    checkIn := if truthyStr newParams.checkIn then newParams.checkIn
      else existing.bind (·.checkIn)
    checkOut := if truthyStr newParams.checkOut then newParams.checkOut
      else existing.bind (·.checkOut)
    nights := if truthyInt newParams.nights then newParams.nights
      else existing.bind (·.nights) }

end LLMClassifier

/-- Concrete stored context for the C1 counterexample. -/
def eC1 : ConvContext.ConversationContext :=
  { chat_id := "chat-1", passengers := some 2, origin := some "delhi" }

/-- Concrete partial new context for the C1 counterexample: it provides a
passenger count of `0`. -/
def ncC1 : ConvContext.PartialContext :=
  { passengers := some 0 }

/-- Concrete context for the C9 counterexample: a negative passenger count
is truthy in JS, so `passengers || 1` stores it unchanged. -/
def cC9 : ConvContext.ConversationContext :=
  { chat_id := "chat-9", passengers := some (-2) }

/-- Concrete context for the C9 witness: no counts supplied. -/
def cC9w : ConvContext.ConversationContext :=
  { chat_id := "chat-9w", origin := some "goa" }

/-- Concrete regex oracle agreeing with the real JS regexes on the message
"find me a hotel in goa": only the two hotel patterns match, and the
to/in extraction regex captures "goa". -/
def R0 : JsRegex :=
  { test := fun p m =>
      m == "find me a hotel in goa" &&
        (p == "\\b(book|find|search|get|show)\\s*(me\\s*)?(a\\s*)?(hotels?|rooms?|stay|accommodation)" ||
         p == "\\bhotels?\\s+(in|at|near)\\b")
    fromToCaps := fun _ => none
    toInCap := fun m => if m == "find me a hotel in goa" then some "goa" else none
    dateFirst := fun _ => none
    daysCap := fun _ => none
    travelersCap := fun _ => none }

/-- Concrete current instant: 11 October 2026 (day-of-year 284), some time
after midnight. -/
def now0 : Now := ⟨2026, 284, true⟩

/-- The `BOOKING_HOTEL` entry of the pattern table. -/
def hotelGroup : IntentClassifier.IntentGroup :=
  IntentClassifier.INTENT_PATTERNS.get ⟨1, by decide⟩

/-- All-failing external oracles (over a trivial flight-data type). -/
def O0 : ChatHandler.Oracles Unit :=
  { amadeusSearch := fun _ => .error ()
    transformFlights := fun _ _ => []
    tavily := fun _ => .error ()
    brave := fun _ => .error ()
    openaiGeneral := .error ()
    openaiItin := .error ()
    hostname := fun _ => ""
    displayDate := fun _ => "" }

/-- Environment with every API key present. -/
def env0 : ChatHandler.Env := ⟨true, true, true⟩

/-- Stored params carrying a check-in date (the C4 hotel scenario). -/
def ctx0 : ExtractedParams := { checkIn := some "2026-01-15" }

/-- A complete classified flight request (the C5 fallback scenario). -/
def clC5 : IntentClassifier.ClassifiedIntent :=
  { type := .BOOKING_FLIGHT
    params := { origin := some "delhi", destination := some "goa"
                departureDate := some "2026-12-20" }
    missingParams := []
    followUpQuestion := none }

/-- All-failing smart-handler oracles. -/
def OS0 : SmartChat.Oracles Unit :=
  { llm := .error ()
    amadeusSearch := fun _ => .error ()
    transformFlights := fun _ _ => []
    tavily := fun _ => .error ()
    openaiGeneral := .error ()
    openaiItin := .error ()
    hostname := fun _ => ""
    displayDate := fun _ => "" }

/-- Smart-handler oracles whose LLM labels the message `ANSWER_FOLLOWUP`
with an extracted date (the C6 scenario). -/
def OSaf : SmartChat.Oracles Unit :=
  { llm := .ok { intent := .ANSWER_FOLLOWUP, checkIn := some "2027-01-08" }
    amadeusSearch := fun _ => .error ()
    transformFlights := fun _ _ => []
    tavily := fun _ => .error ()
    openaiGeneral := .error ()
    openaiItin := .error ()
    hostname := fun _ => ""
    displayDate := fun _ => "" }

/-- Stored conversation state with a pending hotel booking (the C6
scenario). -/
def st0 : SmartChat.ConversationState :=
  { lastIntent := some .BOOKING_HOTEL
    pendingQuestion := some "When would you like to check in?"
    params := some { destination := some "goa" } }

/-! Supporting lemmas. -/

/-- Spreading over an absent key keeps the value. -/
theorem spreadField_none {α : Type} (v : Option α) : spreadField v none = v := by
  cases v <;> rfl

/-- Spreading extracted params over no context gives the extracted params. -/
theorem spreadParams_none_ctx (ext : ExtractedParams) : spreadParams none ext = ext := by
  cases ext
  simp [spreadParams, spreadField_none]

/-- Lookup distributes over append: the first list wins when it has the key. -/
theorem jsLookup_append (a b : List (String × String)) (k : String) :
    jsLookup (a ++ b) k = ((jsLookup a k).orElse (fun _ => jsLookup b k)) := by
  induction a with
  | nil => simp [jsLookup]
  | cons p t ih =>
    cases hc : p.1 == k with
    | true => simp [jsLookup, List.find?, hc]
    | false =>
      simp only [jsLookup, List.cons_append, List.find?, hc] at *
      exact ih

/-- Lookup after a key-preserving value map. -/
theorem jsLookup_mapVal (old : List (String × String)) (f : String → String → String)
    (k : String) :
    jsLookup (old.map (fun p => (p.1, f p.1 p.2))) k = (jsLookup old k).map (f k) := by
  induction old with
  | nil => simp [jsLookup]
  | cons p t ih =>
    cases hc : p.1 == k with
    | true =>
      have : p.1 = k := by simpa using hc
      subst this
      simp [jsLookup, List.find?, hc]
    | false => simpa [jsLookup, List.find?, hc] using ih

/-- Lookup steps over a cons cell by comparing the head key. -/
theorem jsLookup_cons (p : String × String) (t : List (String × String)) (k : String) :
    jsLookup (p :: t) k = if p.1 == k then some p.2 else jsLookup t k := by
  cases hc : p.1 == k <;> simp [jsLookup, List.find?, hc]

/-- Lookup after filtering on the keys. -/
theorem jsLookup_filterKey (q : String → Bool) (k : String) (l : List (String × String)) :
    jsLookup (l.filter (fun p => q p.1)) k = if q k then jsLookup l k else none := by
  induction l with
  | nil => cases hq : q k <;> simp [jsLookup, hq]
  | cons p t ih =>
    rw [List.filter_cons]
    cases hq : q p.1 with
    | false =>
      cases hc : p.1 == k with
      | true =>
        have hk : p.1 = k := by simpa using hc
        subst hk
        rw [if_neg (by simp [hq]), ih]
        simp [hq]
      | false =>
        rw [if_neg (by simp [hq]), ih, jsLookup_cons]
        simp [hc]
    | true =>
      rw [if_pos (by simp [hq]), jsLookup_cons, jsLookup_cons]
      cases hc : p.1 == k with
      | true =>
        have hk : p.1 = k := by simpa using hc
        subst hk
        simp [hc, hq]
      | false => simp [hc, ih]

/-- The JS object spread merges key-wise, with the second object winning. -/
theorem jsLookup_spreadMerge (old new : List (String × String)) (k : String) :
    jsLookup (ConvContext.spreadMerge old new) k =
      ((jsLookup new k).orElse (fun _ => jsLookup old k)) := by
  unfold ConvContext.spreadMerge
  rw [jsLookup_append,
    jsLookup_mapVal old (fun k' v => (jsLookup new k').getD v) k,
    jsLookup_filterKey (fun k' => !(jsLookup old k').isSome) k new]
  cases h1 : jsLookup old k <;> cases h2 : jsLookup new k <;> simp [h1, h2]

namespace IntentClassifier

/-- One step of the stable descending sort. -/
theorem sortDesc_cons (a : IntentType × Int) (r : List (IntentType × Int)) :
    sortDesc (a :: r) = insertDesc a (sortDesc r) := rfl

/-- Membership through `insertDesc`. -/
theorem mem_insertDesc (a x : IntentType × Int) (l : List (IntentType × Int)) :
    x ∈ insertDesc a l ↔ x = a ∨ x ∈ l := by
  induction l with
  | nil => simp [insertDesc]
  | cons y ys ih =>
    by_cases h : a.2 ≥ y.2
    · simp only [insertDesc, if_pos h, List.mem_cons]
    · simp only [insertDesc, if_neg h, List.mem_cons, ih]
      tauto

/-- Sorting does not change the members. -/
theorem mem_sortDesc (x : IntentType × Int) (l : List (IntentType × Int)) :
    x ∈ sortDesc l ↔ x ∈ l := by
  induction l with
  | nil => simp [sortDesc]
  | cons a r ih =>
    rw [sortDesc_cons, mem_insertDesc, ih]
    simp [List.mem_cons]

/-- Inserting preserves the descending-priority invariant. -/
theorem pairwise_insertDesc (a : IntentType × Int) (l : List (IntentType × Int))
    (h : l.Pairwise (fun x y => y.2 ≤ x.2)) :
    (insertDesc a l).Pairwise (fun x y => y.2 ≤ x.2) := by
  induction l with
  | nil => simp [insertDesc]
  | cons y ys ih =>
    rcases List.pairwise_cons.mp h with ⟨hy, hys⟩
    by_cases hcmp : a.2 ≥ y.2
    · rw [insertDesc, if_pos hcmp]
      refine List.pairwise_cons.mpr ⟨?_, h⟩
      intro z hz
      rcases List.mem_cons.mp hz with rfl | hz'
      · exact hcmp
      · exact le_trans (hy z hz') hcmp
    · rw [insertDesc, if_neg hcmp]
      refine List.pairwise_cons.mpr ⟨?_, ih hys⟩
      intro z hz
      rcases (mem_insertDesc a z ys).mp hz with rfl | hz'
      · omega
      · exact hy z hz'

/-- The sort output is descending in priority. -/
theorem pairwise_sortDesc (l : List (IntentType × Int)) :
    (sortDesc l).Pairwise (fun x y => y.2 ≤ x.2) := by
  induction l with
  | nil => simp [sortDesc]
  | cons a r ih => exact pairwise_insertDesc a (sortDesc r) ih

/-- The head of the sorted list is a member of maximal priority. -/
theorem sortDesc_head_max (l : List (IntentType × Int)) (h : IntentType × Int)
    (t : List (IntentType × Int)) (he : sortDesc l = h :: t) :
    h ∈ l ∧ ∀ y ∈ l, y.2 ≤ h.2 := by
  have hmem : h ∈ l := (mem_sortDesc h l).mp (he ▸ List.mem_cons_self h t)
  refine ⟨hmem, ?_⟩
  intro y hy
  have hys : y ∈ sortDesc l := (mem_sortDesc y l).mpr hy
  rw [he] at hys
  rcases List.mem_cons.mp hys with rfl | hyt
  · exact le_refl _
  · have hp := pairwise_sortDesc l
    rw [he] at hp
    exact (List.pairwise_cons.mp hp).1 y hyt

/-- Membership in the match list built by `classifyIntent`. -/
theorem mem_matchList (R : JsRegex) (message : String) (x : IntentType × Int) :
    x ∈ INTENT_PATTERNS.filterMap (fun g =>
      if groupMatches R message g then some (g.type, g.priority) else none) ↔
    ∃ g ∈ INTENT_PATTERNS, groupMatches R message g = true ∧ x = (g.type, g.priority) := by
  rw [List.mem_filterMap]
  constructor
  · rintro ⟨g, hg, hf⟩
    by_cases hm : groupMatches R message g
    · rw [if_pos hm] at hf
      exact ⟨g, hg, hm, (Option.some_inj.mp hf).symm⟩
    · rw [if_neg hm] at hf
      cases hf
  · rintro ⟨g, hg, hm, rfl⟩
    exact ⟨g, hg, by rw [if_pos hm]⟩

/-- Unfolding equation for the detected intent of `classifyIntent`. -/
theorem classifyIntent_type_eq (R : JsRegex) (n : Now) (message : String)
    (ctx : Option ExtractedParams) :
    (classifyIntent R n message ctx).type =
      match sortDesc (INTENT_PATTERNS.filterMap (fun g =>
        if groupMatches R message g then some (g.type, g.priority) else none)) with
      | [] => IntentType.GENERAL
      | m :: _ => m.1 := rfl

/-- A detected intent either is one of the three booking intents or has an
empty required-parameter list. -/
theorem required_params_cases (t : IntentType) :
    (t = IntentType.BOOKING_FLIGHT ∨ t = IntentType.BOOKING_HOTEL ∨
      t = IntentType.BOOKING_TRIP) ∨ REQUIRED_PARAMS t = [] := by
  cases t <;> simp [REQUIRED_PARAMS]

/-- Every required key of some intent has an entry in the question map. -/
theorem questions_of_required (t : IntentType) (k : ParamKey)
    (hk : k ∈ REQUIRED_PARAMS t) : (MISSING_PARAM_QUESTIONS k).isSome := by
  cases t <;> simp [REQUIRED_PARAMS] at hk
  all_goals (try rcases hk with rfl | rfl | rfl) <;> simp [MISSING_PARAM_QUESTIONS]

/-- Unfolding equation for the follow-up question of `classifyIntent`. -/
theorem classify_followUp_eq (R : JsRegex) (n : Now) (message : String)
    (ctx : Option ExtractedParams) :
    (classifyIntent R n message ctx).followUpQuestion =
      match (classifyIntent R n message ctx).missingParams with
      | [] => none
      | k :: _ => MISSING_PARAM_QUESTIONS k := rfl

/-- Unfolding equation for the missing list of `classifyIntent`. -/
theorem classify_missing_eq (R : JsRegex) (n : Now) (message : String)
    (ctx : Option ExtractedParams) :
    (classifyIntent R n message ctx).missingParams =
      (REQUIRED_PARAMS (classifyIntent R n message ctx).type).filter
        (fun k => !keyTruthy (classifyIntent R n message ctx).params k) := rfl

/-- Members of the missing list are required for the detected intent. -/
theorem classify_missing_subset (R : JsRegex) (n : Now) (message : String)
    (ctx : Option ExtractedParams) (k : ParamKey)
    (h : k ∈ (classifyIntent R n message ctx).missingParams) :
    k ∈ REQUIRED_PARAMS (classifyIntent R n message ctx).type := by
  rw [classify_missing_eq] at h
  exact List.mem_of_mem_filter h

/-- When nothing is missing, every required parameter of the detected intent
is truthy in the merged params. -/
theorem classify_complete_truthy (R : JsRegex) (n : Now) (message : String)
    (ctx : Option ExtractedParams)
    (h : (classifyIntent R n message ctx).missingParams = []) :
    ∀ k ∈ REQUIRED_PARAMS (classifyIntent R n message ctx).type,
      keyTruthy (classifyIntent R n message ctx).params k = true := by
  intro k hk
  rw [classify_missing_eq] at h
  have hx := List.filter_eq_nil_iff.mp h k hk
  simpa using hx

/-- The follow-up question of `classifyIntent` is defined exactly when the
missing list is non-empty (every required key has an entry in
`MISSING_PARAM_QUESTIONS`). -/
theorem followUp_isSome_aux (t : IntentType) (p : ExtractedParams) :
    (match (REQUIRED_PARAMS t).filter (fun k => !keyTruthy p k) with
      | [] => none
      | k :: _ => MISSING_PARAM_QUESTIONS k).isSome ↔
    (REQUIRED_PARAMS t).filter (fun k => !keyTruthy p k) ≠ [] := by
  cases hm : (REQUIRED_PARAMS t).filter (fun k => !keyTruthy p k) with
  | nil => simp
  | cons k ks =>
    have hk : k ∈ REQUIRED_PARAMS t :=
      List.mem_of_mem_filter (hm ▸ List.mem_cons_self k ks)
    simp only [ne_eq, reduceCtorEq, not_false_eq_true, iff_true]
    cases t <;> simp [REQUIRED_PARAMS] at hk
    all_goals (try rcases hk with rfl | rfl | rfl) <;> simp [MISSING_PARAM_QUESTIONS]

end IntentClassifier

/-- Cumulative month offsets are between 0 and 335. -/
theorem cumDays_bounds (L : Bool) (m : Nat) (hm : m ≤ 11) :
    0 ≤ cumDays L m ∧ cumDays L m ≤ 335 := by
  interval_cases m <;> cases L <;> norm_num [cumDays]

/-- Cumulative month offsets of non-January months are at least 31. -/
theorem cumDays_pos (L : Bool) (m : Nat) (h1 : 1 ≤ m) (hm : m ≤ 11) :
    31 ≤ cumDays L m := by
  interval_cases m <;> cases L <;> norm_num [cumDays]

/-- Cumulative month offsets grow with the month. -/
theorem cumDays_mono (L : Bool) (m : Nat) (hm : m ≤ 11) :
    cumDays L m ≤ cumDays L (m + 1) := by
  interval_cases m <;> cases L <;> norm_num [cumDays]

/-- A year has 365 or 366 days. -/
theorem daysInYear_eq (y : Int) : daysInYear y = 365 ∨ daysInYear y = 366 := by
  unfold daysInYear
  cases h : isLeap y <;> simp [cumDays]

/-- Characterisation of the strict calendar order. -/
theorem ydLt_true_iff (a b : YDate) :
    ydLt a b = true ↔ (a.year < b.year ∨ (a.year = b.year ∧ a.doy < b.doy)) := by
  simp [ydLt]

/-- Characterisation of the negated calendar order. -/
theorem ydLt_false_iff (a b : YDate) :
    ydLt a b = false ↔ (b.year < a.year ∨ (a.year = b.year ∧ b.doy ≤ a.doy)) := by
  constructor
  · intro h
    have hx : ¬ (a.year < b.year ∨ (a.year = b.year ∧ a.doy < b.doy)) := by
      rw [← ydLt_true_iff, h]
      simp
    omega
  · intro h
    cases hb : ydLt a b
    · rfl
    · exfalso
      have := (ydLt_true_iff a b).mp hb
      omega

/-- A date not before the current instant is not before the current day. -/
theorem ltNow_false_not_lt (d : YDate) (n : Now) (h : ltNow d n = false) :
    ydLt d (nowDate n) = false := by
  unfold ltNow at h
  exact (Bool.or_eq_false_iff.mp h).1

/-- A date in an earlier year is before the current instant. -/
theorem ltNow_true_of_year_lt (d : YDate) (n : Now) (h : d.year < n.year) :
    ltNow d n = true := by
  unfold ltNow
  have hx : ydLt d (nowDate n) = true := (ydLt_true_iff _ _).mpr (Or.inl h)
  simp [hx]

/-- A date in a later year is not before the current instant. -/
theorem ltNow_false_of_year_gt (d : YDate) (n : Now) (h : n.year < d.year) :
    ltNow d n = false := by
  unfold ltNow
  have h1 : ydLt d (nowDate n) = false := (ydLt_false_iff _ _).mpr (Or.inl h)
  have h2 : (d == nowDate n) = false := by
    rw [beq_eq_false_iff_ne]
    intro he
    rw [he] at h
    simp [nowDate] at h
  simp [h1, h2]

set_option maxHeartbeats 4000000 in
/-- Correctness of the month/day-of-month recovery on a valid day-of-year:
the month is in range and the day sits inside it. -/
theorem monthFromDoy_spec (L : Bool) (doy : Int) (m : Nat) (dd : Int)
    (h1 : 1 ≤ doy) (h2 : doy ≤ cumDays L 12)
    (hmd : monthFromDoy L doy = (m, dd)) :
    m ≤ 11 ∧ cumDays L m < doy ∧ doy ≤ cumDays L (m + 1) ∧
    dd = doy - cumDays L m := by
  cases L <;>
    (unfold monthFromDoy at hmd
     norm_num [cumDays] at hmd h2
     split_ifs at hmd <;>
       (injection hmd with hA hB
        subst hA
        subst hB
        simp [cumDays]
        omega))

/-- `mkYD` on an in-range day-of-year does not spill. -/
theorem mkYD_in_range (y : Int) (m : Nat) (d : Int)
    (h1 : 1 ≤ cumDays (isLeap y) m + d)
    (h2 : cumDays (isLeap y) m + d ≤ daysInYear y) :
    mkYD y m d = ⟨y, cumDays (isLeap y) m + d⟩ := by
  unfold mkYD
  rw [if_neg (by omega), if_neg (by omega)]

/-- Case analysis of `mkYD` for the regex-bounded inputs (month 0–11, day
0–99): either the borrow case (day 0 in January, giving 31 December of the
previous year) or a valid date of this year or the next. -/
theorem mkYD_cases (y : Int) (m : Nat) (d : Int) (hm : m ≤ 11) (h0 : 0 ≤ d)
    (h99 : d ≤ 99) :
    (mkYD y m d = ⟨y - 1, daysInYear (y - 1)⟩ ∧ m = 0 ∧ d = 0) ∨
    ((mkYD y m d).year = y ∧ 1 ≤ (mkYD y m d).doy ∧
      (mkYD y m d).doy ≤ daysInYear y) ∨
    ((mkYD y m d).year = y + 1 ∧ 1 ≤ (mkYD y m d).doy ∧
      (mkYD y m d).doy ≤ daysInYear (y + 1)) := by
  have hcb := cumDays_bounds (isLeap y) m hm
  have hdy := daysInYear_eq y
  have hdy1 := daysInYear_eq (y + 1)
  unfold mkYD
  dsimp only
  split_ifs with hle hgt
  · have hm0 : m = 0 := by
      by_contra hne
      have := cumDays_pos (isLeap y) m (Nat.one_le_iff_ne_zero.mpr hne) hm
      omega
    subst hm0
    have hc0 : cumDays (isLeap y) 0 = 0 := rfl
    have hd0 : d = 0 := by omega
    subst hd0
    left
    refine ⟨?_, rfl, rfl⟩
    rw [YDate.mk.injEq]
    omega
  · right; right
    exact ⟨rfl, by dsimp only; omega, by dsimp only; omega⟩
  · right; left
    exact ⟨rfl, by dsimp only; omega, by dsimp only; omega⟩

set_option maxHeartbeats 4000000 in
/-- Bumping the year of a valid date gives a valid date of the next year
(a 29 February lands on 1 March, as `setFullYear` does). -/
theorem setYearPlusOne_valid (y0 doy0 : Int) (h1 : 1 ≤ doy0)
    (h2 : doy0 ≤ daysInYear y0) :
    ∃ doy1, setYearPlusOne ⟨y0, doy0⟩ = ⟨y0 + 1, doy1⟩ ∧ 1 ≤ doy1 ∧
      doy1 ≤ daysInYear (y0 + 1) := by
  unfold setYearPlusOne
  dsimp only
  rcases hmd : monthFromDoy (isLeap y0) doy0 with ⟨m, dd⟩
  obtain ⟨hm11, hlt, hle, hdd⟩ :=
    monthFromDoy_spec (isLeap y0) doy0 m dd h1 (by simpa [daysInYear] using h2) hmd
  have hcb := cumDays_bounds (isLeap (y0 + 1)) m hm11
  have hlow : 1 ≤ cumDays (isLeap (y0 + 1)) m + dd := by omega
  have hhigh : cumDays (isLeap (y0 + 1)) m + dd ≤ daysInYear (y0 + 1) := by
    have hdy1 : daysInYear (y0 + 1) = cumDays (isLeap (y0 + 1)) 12 := rfl
    rw [hdy1]
    interval_cases m <;>
      cases hA : isLeap y0 <;> cases hB : isLeap (y0 + 1) <;>
        simp only [hA, hB, cumDays] at hlt hle hdd ⊢ <;> omega
  rw [mkYD_in_range (y0 + 1) m dd (by omega)
    (by simpa [daysInYear] using hhigh)]
  exact ⟨_, rfl, by omega, hhigh⟩

/-- Bumping the year of 31 December gives 31 December of the next year. -/
theorem setYearPlusOne_lastDay (y : Int) :
    setYearPlusOne ⟨y - 1, daysInYear (y - 1)⟩ = ⟨y, daysInYear y⟩ := by
  unfold setYearPlusOne
  dsimp only
  have hmd : monthFromDoy (isLeap (y - 1)) (daysInYear (y - 1)) = (11, 31) := by
    cases h : isLeap (y - 1) <;>
      norm_num [monthFromDoy, daysInYear, cumDays, h]
  rw [hmd]
  dsimp only
  have hy : y - 1 + 1 = y := by ring
  rw [hy]
  have hsum : cumDays (isLeap y) 11 + 31 = daysInYear y := by
    cases h : isLeap y <;> simp [cumDays, daysInYear, h]
  have hin := mkYD_in_range y 11 31
    (by have := (cumDays_bounds (isLeap y) 11 (by norm_num)).1; omega)
    (by omega)
  rw [hin, YDate.mk.injEq]
  exact ⟨rfl, hsum⟩

/-- Tomorrow, next week and any other non-negative day offset from the
current day are not before it. -/
theorem addDays_not_past (n : Now) (k : Int) (_hv : ValidNow n) (hk : 0 ≤ k) :
    ydLt (addDays (nowDate n) k) (nowDate n) = false := by
  unfold addDays nowDate
  split_ifs with h
  · rw [ydLt_false_iff]
    left
    dsimp only
    omega
  · rw [ydLt_false_iff]
    right
    dsimp only
    omega

/-- Next month from the current day is not before it. -/
theorem nextMonth_not_past (n : Now) (hv : ValidNow n) :
    ydLt (nextMonthDate (nowDate n)) (nowDate n) = false := by
  unfold nextMonthDate nowDate
  dsimp only
  rcases hmd : monthFromDoy (isLeap n.year) n.doy with ⟨m, dd⟩
  obtain ⟨hm11, hlt, hle, hdd⟩ := monthFromDoy_spec (isLeap n.year) n.doy m dd
    hv.1 (by simpa [daysInYear] using hv.2) hmd
  have hmono := cumDays_mono (isLeap n.year) m hm11
  have hcb := cumDays_bounds (isLeap n.year) m hm11
  unfold mkYD
  dsimp only
  split_ifs with hle0 hgt
  · exfalso
    omega
  · rw [ydLt_false_iff]
    left
    dsimp only
    omega
  · rw [ydLt_false_iff]
    right
    dsimp only
    constructor
    · rfl
    · omega

/-- Core of the amended claim C10: a specific day/month without an explicit
year, resolved against the current instant, never gives a date before the
current day. -/
theorem resolveSpecific_no_year (n : Now) (d : Int) (m : Nat)
    (hv : ValidNow n) (hm : m ≤ 11) (h0 : 0 ≤ d) (h99 : d ≤ 99) :
    ydLt (resolveSpecific n d m none) (nowDate n) = false := by
  unfold resolveSpecific
  dsimp only
  simp only [Option.getD_none]
  rcases mkYD_cases n.year m d hm h0 h99 with ⟨hEq, hm0, hd0⟩ | ⟨hy, hb1, hb2⟩ |
    ⟨hy, hb1, hb2⟩
  · rw [hEq]
    have hLt : ltNow ⟨n.year - 1, daysInYear (n.year - 1)⟩ n = true :=
      ltNow_true_of_year_lt _ n (by dsimp only; omega)
    rw [if_pos hLt, setYearPlusOne_lastDay, ydLt_false_iff]
    right
    exact ⟨rfl, hv.2⟩
  · by_cases hlt : ltNow (mkYD n.year m d) n = true
    · rw [if_pos hlt]
      rcases hmk : mkYD n.year m d with ⟨yy, dy⟩
      rw [hmk] at hy hb1 hb2
      dsimp only at hy hb1 hb2
      subst hy
      obtain ⟨doy1, hset, hs1, hs2⟩ := setYearPlusOne_valid n.year dy hb1 hb2
      rw [hset, ydLt_false_iff]
      left
      simp only [nowDate]
      omega
    · have hlf : ltNow (mkYD n.year m d) n = false := by
        cases h : ltNow (mkYD n.year m d) n
        · rfl
        · exact absurd h hlt
      rw [if_neg (by simp [hlf])]
      exact ltNow_false_not_lt _ n hlf
  · have hlf : ltNow (mkYD n.year m d) n = false :=
      ltNow_false_of_year_gt _ n (by omega)
    rw [if_neg (by simp [hlf])]
    exact ltNow_false_not_lt _ n hlf

/-- Value bounds for a short digit run. -/
theorem digitsToInt_bounds (r : List Char) (hd : r.all isDigitChar = true)
    (hl : r.length ≤ 2) : 0 ≤ digitsToInt r ∧ digitsToInt r ≤ 99 := by
  match r with
  | [] => simp [digitsToInt]
  | [a] =>
    simp [isDigitChar] at hd
    simp [digitsToInt]
    omega
  | [a, b] =>
    simp [isDigitChar] at hd
    simp [digitsToInt]
    omega
  | a :: b :: c :: t => simp at hl

/-- The day captured by `\b(\d{1,2})\b` is between 0 and 99. -/
theorem dayScan_bounds (l : List Char) (d : Int) (h : dayScan l = some d) :
    0 ≤ d ∧ d ≤ 99 := by
  unfold dayScan at h
  rcases hf : (cleanRuns l).find? (fun r => r.length ≤ 2 && r.all isDigitChar)
    with _ | r
  · rw [hf] at h
    cases h
  · rw [hf] at h
    simp only [Option.map_some', Option.some.injEq] at h
    have hp := List.find?_some hf
    simp only [Bool.and_eq_true, decide_eq_true_eq] at hp
    have hb := digitsToInt_bounds r hp.2 hp.1
    omega

/-- The month found in `monthMap` is between 0 and 11. -/
theorem monthScan_le (s : String) (m : Nat) (h : monthScan s = some m) :
    m ≤ 11 := by
  unfold monthScan at h
  rcases hf : MONTH_ENTRIES.find? (fun e => jsIncludes s e.1) with _ | e
  · rw [hf] at h
    cases h
  · rw [hf] at h
    simp only [Option.map_some', Option.some.injEq] at h
    have hmem := List.mem_of_find?_eq_some hf
    have hall : ∀ x ∈ MONTH_ENTRIES, x.2 ≤ 11 := by decide
    have := hall e hmem
    omega

/-- A truthy optional string is a `some`. -/
theorem truthyStr_some (v : Option String) (h : truthyStr v = true) : ∃ s, v = some s := by
  cases v with
  | none => simp [truthyStr] at h
  | some s => exact ⟨s, rfl⟩

namespace ChatHandler

open IntentClassifier

/-- With a missing parameter and a defined follow-up question, the flight
handler asks the question and performs no call. -/
theorem handleFlightBooking_missing {FD : Type} (O : Oracles FD)
    (cl : ClassifiedIntent) (k : ParamKey) (ks : List ParamKey) (q : String)
    (hm : cl.missingParams = k :: ks) (hq : cl.followUpQuestion = some q) :
    handleFlightBooking O cl =
      (.ok { message := q, intent := .BOOKING_FLIGHT, state := cl.params
             needsMoreInfo := true }, []) := by
  unfold handleFlightBooking
  rw [hm]
  simp [hq]

/-- With a missing parameter and a defined follow-up question, the hotel
handler asks the question and performs no call. -/
theorem handleHotelBooking_missing (cl : ClassifiedIntent) (k : ParamKey)
    (ks : List ParamKey) (q : String)
    (hm : cl.missingParams = k :: ks) (hq : cl.followUpQuestion = some q) :
    handleHotelBooking cl =
      (.ok { message := q, intent := .BOOKING_HOTEL, state := cl.params
             needsMoreInfo := true }, []) := by
  unfold handleHotelBooking
  rw [hm]
  simp [hq]

/-- With a missing parameter and a defined follow-up question, the trip
handler asks the question and performs no call. -/
theorem handleTripBooking_missing {FD : Type} (O : Oracles FD)
    (cl : ClassifiedIntent) (k : ParamKey) (ks : List ParamKey) (q : String)
    (hm : cl.missingParams = k :: ks) (hq : cl.followUpQuestion = some q) :
    handleTripBooking O cl =
      (.ok { message := q, intent := .BOOKING_TRIP, state := cl.params
             needsMoreInfo := true }, []) := by
  unfold handleTripBooking
  rw [hm]
  simp [hq]

/-- With no missing parameter and both cities present, the flight handler
performs exactly one Amadeus search and returns `needsMoreInfo := false`
(either the transformed results or, when the search throws, the hard-coded
fallback). -/
theorem handleFlightBooking_complete {FD : Type} (O : Oracles FD)
    (cl : ClassifiedIntent) (o d : String)
    (hm : cl.missingParams = []) (ho : cl.params.origin = some o)
    (hd : cl.params.destination = some d) :
    ∃ resp q, handleFlightBooking O cl = (.ok resp, [.amadeus q]) ∧
      resp.needsMoreInfo = false ∧ resp.state = cl.params := by
  unfold handleFlightBooking
  rw [hm]
  dsimp only
  rw [ho, hd]
  dsimp only
  split
  · exact ⟨_, _, rfl, rfl, rfl⟩
  · exact ⟨_, _, rfl, rfl, rfl⟩

/-- With no missing parameter and a present destination, the hotel handler
returns the hard-coded hotels with no external call. -/
theorem handleHotelBooking_complete (cl : ClassifiedIntent) (d : String)
    (hm : cl.missingParams = []) (hd : cl.params.destination = some d) :
    handleHotelBooking cl =
      (.ok { message := "Here are the best hotels in " ++ capitalize d ++
              ". Click \"Book\" to reserve! 🏨"
             intent := .BOOKING_HOTEL
             searchResults := some (generateHotelResults d)
             state := cl.params
             needsMoreInfo := false }, []) := by
  unfold handleHotelBooking
  rw [hm, hd]

/-- With no missing parameter but an absent origin (possible for a trip,
whose required set has no origin), the flight handler throws before any
call, and the exception escapes its catch block too. -/
theorem handleFlightBooking_no_origin {FD : Type} (O : Oracles FD)
    (cl : ClassifiedIntent) (hm : cl.missingParams = [])
    (ho : cl.params.origin = none) :
    handleFlightBooking O cl = (.error (), []) := by
  unfold handleFlightBooking
  rw [hm]
  dsimp only
  rw [ho]

/-- A complete trip request with a present origin performs the flight search
and returns combined results. -/
theorem handleTripBooking_complete_origin {FD : Type} (O : Oracles FD)
    (cl : ClassifiedIntent) (o d : String)
    (hm : cl.missingParams = []) (ho : cl.params.origin = some o)
    (hd : cl.params.destination = some d) :
    ∃ resp q, handleTripBooking O cl = (.ok resp, [.amadeus q]) ∧
      resp.needsMoreInfo = false ∧ resp.state = cl.params := by
  obtain ⟨respF, qF, hfr, hnF, hsF⟩ := handleFlightBooking_complete O cl o d hm ho hd
  unfold handleTripBooking
  rw [hm]
  dsimp only
  rw [hfr, hd]
  exact ⟨_, qF, rfl, rfl, rfl⟩

/-- A complete trip request with an absent origin propagates the exception
of the flight handler and performs no call. -/
theorem handleTripBooking_origin_none {FD : Type} (O : Oracles FD)
    (cl : ClassifiedIntent) (hm : cl.missingParams = [])
    (ho : cl.params.origin = none) :
    handleTripBooking O cl = (.error (), []) := by
  unfold handleTripBooking
  rw [hm]
  dsimp only
  rw [handleFlightBooking_no_origin O cl hm ho]

end ChatHandler

/-! Claim theorems. -/

/-- Claim C1 as stated is false: the new context provides a value for the
`passengers` slot (`0`), but the merge result keeps the stored value `2`
instead of the provided one, because the source merges with `||` and `0` is
falsy. -/
theorem c1_counterexample :
    ncC1.passengers = some 0 ∧
    (ConvContext.mergeContext (some eC1) ncC1).passengers = some 2 :=
  ⟨rfl, rfl⟩

/-- Claim C1 (amended): for every stored context and partial new context the
merge takes each slot field from the new context exactly when the new
context provides a truthy value (non-empty string, non-zero number) and
keeps the stored value otherwise, leaves identity fields unchanged, and
merges metadata key-wise with new keys overriding; `mergeParams` behaves the
same way on the params interface. -/
theorem c1_merge_truthy_override (e : ConvContext.ConversationContext)
    (nc : ConvContext.PartialContext) (p : Option ExtractedParams)
    (q : ExtractedParams) :
    ConvContext.mergeContext (some e) nc = ConvContext.mergeContextSpec e nc ∧
    (∀ k, jsLookup ((ConvContext.mergeContext (some e) nc).metadata.getD []) k =
      ((jsLookup (nc.metadata.getD []) k).orElse
        (fun _ => jsLookup (e.metadata.getD []) k))) ∧
    LLMClassifier.mergeParams p q = LLMClassifier.mergeParamsSpec p q := by
  refine ⟨?_, ?_, ?_⟩
  · rfl
  · intro k
    show jsLookup (some (ConvContext.spreadMerge (e.metadata.getD [])
      (nc.metadata.getD [])) |>.getD []) k = _
    simpa using jsLookup_spreadMerge (e.metadata.getD []) (nc.metadata.getD []) k
  · rfl

/-- Claim C8: merging never touches the identity fields of the stored
context — `chat_id`, `id`, `user_id`, `created_at`, `updated_at` all come
from the existing row, whatever the partial new context supplies for them. -/
theorem c8_identity_fields_preserved (e : ConvContext.ConversationContext)
    (nc : ConvContext.PartialContext) :
    (ConvContext.mergeContext (some e) nc).chat_id = e.chat_id ∧
    (ConvContext.mergeContext (some e) nc).id = e.id ∧
    (ConvContext.mergeContext (some e) nc).user_id = e.user_id ∧
    (ConvContext.mergeContext (some e) nc).created_at = e.created_at ∧
    (ConvContext.mergeContext (some e) nc).updated_at = e.updated_at :=
  ⟨rfl, rfl, rfl, rfl, rfl⟩

/-- Claim C9 as stated is false: the row built from a context with
`passengers = -2` stores `-2`, which is not ≥ 1. -/
theorem c9_counterexample :
    (ConvContext.buildUpsertRow cC9).passengers = -2 ∧
    ¬ (1 ≤ (ConvContext.buildUpsertRow cC9).passengers) := by
  refine ⟨rfl, ?_⟩
  decide

/-- Claim C9 (amended): rows built from contexts whose passenger and room
counts are not negative satisfy `passengers ≥ 1` and `rooms ≥ 1` — a missing
or zero count is replaced by 1 and any other count is stored unchanged (in
particular a negative count would be stored as is); every absent slot field
is stored as `null` and absent metadata as the empty object. -/
theorem c9_upsert_row_defaults (c : ConvContext.ConversationContext)
    (hp : ∀ n, c.passengers = some n → 0 ≤ n)
    (hr : ∀ n, c.rooms = some n → 0 ≤ n) :
    1 ≤ (ConvContext.buildUpsertRow c).passengers ∧
    1 ≤ (ConvContext.buildUpsertRow c).rooms ∧
    ((c.passengers = none ∨ c.passengers = some 0) →
      (ConvContext.buildUpsertRow c).passengers = 1) ∧
    (∀ n, c.passengers = some n → n ≠ 0 →
      (ConvContext.buildUpsertRow c).passengers = n) ∧
    ((c.rooms = none ∨ c.rooms = some 0) → (ConvContext.buildUpsertRow c).rooms = 1) ∧
    (∀ n, c.rooms = some n → n ≠ 0 → (ConvContext.buildUpsertRow c).rooms = n) ∧
    (c.user_id = none → (ConvContext.buildUpsertRow c).user_id = none) ∧
    (c.intent = none → (ConvContext.buildUpsertRow c).intent = none) ∧
    (c.origin = none → (ConvContext.buildUpsertRow c).origin = none) ∧
    (c.destination = none → (ConvContext.buildUpsertRow c).destination = none) ∧
    (c.departure_date = none → (ConvContext.buildUpsertRow c).departure_date = none) ∧
    (c.return_date = none → (ConvContext.buildUpsertRow c).return_date = none) ∧
    (c.check_in = none → (ConvContext.buildUpsertRow c).check_in = none) ∧
    (c.check_out = none → (ConvContext.buildUpsertRow c).check_out = none) ∧
    (c.metadata = none → (ConvContext.buildUpsertRow c).metadata = []) := by
  unfold ConvContext.buildUpsertRow
  refine ⟨?_, ?_, ?_, ?_, ?_, ?_, ?_, ?_, ?_, ?_, ?_, ?_, ?_, ?_, ?_⟩
  · match hpv : c.passengers with
    | none => simp
    | some n =>
      have h0 := hp n hpv
      by_cases hz : n = 0
      · simp [hz]
      · simp [hz]; omega
  · match hrv : c.rooms with
    | none => simp
    | some n =>
      have h0 := hr n hrv
      by_cases hz : n = 0
      · simp [hz]
      · simp [hz]; omega
  · rintro (h | h) <;> simp [h]
  · intro n h hz
    simp [h, hz]
  · rintro (h | h) <;> simp [h]
  · intro n h hz
    simp [h, hz]
  · intro h
    simp [h, ConvContext.orNull, truthyStr]
  · intro h
    simp [h, ConvContext.orNull, truthyStr]
  · intro h
    simp [h, ConvContext.orNull, truthyStr]
  · intro h
    simp [h, ConvContext.orNull, truthyStr]
  · intro h
    simp [h, ConvContext.orNull, truthyStr]
  · intro h
    simp [h, ConvContext.orNull, truthyStr]
  · intro h
    simp [h, ConvContext.orNull, truthyStr]
  · intro h
    simp [h, ConvContext.orNull, truthyStr]
  · intro h
    simp [h]

/-- Claim C7 as stated is false: for the `destination` field the generator
`getFollowUpQuestion` of `llm-intent-classifier.ts` does not return the fixed
question "Where would you like to go?" when the intent is a hotel booking —
it asks a hotel-specific question instead. -/
theorem c7_counterexample :
    LLMClassifier.getFollowUpQuestion ParamKey.destination
      LLMClassifier.IntentType.BOOKING_HOTEL = "Which city would you like to stay in?" ∧
    LLMClassifier.getFollowUpQuestion ParamKey.destination
      LLMClassifier.IntentType.BOOKING_HOTEL ≠ "Where would you like to go?" := by
  exact ⟨rfl, by decide⟩

/-- Claim C7 (amended): every follow-up-question generator maps `origin` to
"Where will you be traveling from?", `destination` to "Where would you like
to go?" — except `getFollowUpQuestion`, which asks "Which city would you like
to stay in?" when the intent is a hotel booking — `departureDate` and
`checkIn` to when-questions, and every field outside its map to "Could you
provide more details?" (the raw `MISSING_PARAM_QUESTIONS` record has no
default and yields `undefined` outside its five keys). -/
theorem c7_followup_question_maps :
    ChatHandler.getMissingParamMessage .origin = "Where will you be traveling from?" ∧
    ChatHandler.getMissingParamMessage .destination = "Where would you like to go?" ∧
    ChatHandler.getMissingParamMessage .departureDate = "When would you like to travel?" ∧
    ChatHandler.getMissingParamMessage .checkIn = "When would you like to check in?" ∧
    ChatHandler.getMissingParamMessage .returnDate = "Could you provide more details?" ∧
    ChatHandler.getMissingParamMessage .travelers = "Could you provide more details?" ∧
    ChatHandler.getMissingParamMessage .cabinClass = "Could you provide more details?" ∧
    ChatHandler.getMissingParamMessage .checkOut = "Could you provide more details?" ∧
    ChatHandler.getMissingParamMessage .nights = "Could you provide more details?" ∧
    SmartChat.getQuestion .origin = "Where will you be traveling from?" ∧
    SmartChat.getQuestion .destination = "Where would you like to go?" ∧
    SmartChat.getQuestion .departureDate =
      "When would you like to travel? (e.g., '15 Jan 2026')" ∧
    SmartChat.getQuestion .checkIn = "When would you like to check in? (e.g., '15 Jan 2026')" ∧
    SmartChat.getQuestion .returnDate = "Could you provide more details?" ∧
    SmartChat.getQuestion .travelers = "Could you provide more details?" ∧
    SmartChat.getQuestion .cabinClass = "Could you provide more details?" ∧
    SmartChat.getQuestion .checkOut = "Could you provide more details?" ∧
    SmartChat.getQuestion .nights = "Could you provide more details?" ∧
    (∀ i, LLMClassifier.getFollowUpQuestion .origin i =
      "Where will you be traveling from?") ∧
    (∀ i, LLMClassifier.getFollowUpQuestion .destination i =
      if i == LLMClassifier.IntentType.BOOKING_HOTEL
      then "Which city would you like to stay in?"
      else "Where would you like to go?") ∧
    (∀ i, LLMClassifier.getFollowUpQuestion .departureDate i =
      "When would you like to travel? (e.g., '15 Jan 2026')") ∧
    (∀ i, LLMClassifier.getFollowUpQuestion .checkIn i =
      "When would you like to check in?") ∧
    (∀ i, LLMClassifier.getFollowUpQuestion .returnDate i =
      "Could you provide more details?") ∧
    (∀ i, LLMClassifier.getFollowUpQuestion .travelers i =
      "Could you provide more details?") ∧
    (∀ i, LLMClassifier.getFollowUpQuestion .nights i =
      "Could you provide more details?") ∧
    IntentClassifier.MISSING_PARAM_QUESTIONS .origin =
      some "Where will you be traveling from?" ∧
    IntentClassifier.MISSING_PARAM_QUESTIONS .destination =
      some "Where would you like to go?" ∧
    IntentClassifier.MISSING_PARAM_QUESTIONS .departureDate =
      some "When would you like to travel? (e.g., '15 Jan 2026', 'tomorrow', 'next week')" ∧
    IntentClassifier.MISSING_PARAM_QUESTIONS .checkIn =
      some "When would you like to check in?" ∧
    IntentClassifier.MISSING_PARAM_QUESTIONS .returnDate =
      some "When would you like to return? (or is this a one-way trip?)" ∧
    IntentClassifier.MISSING_PARAM_QUESTIONS .travelers = none ∧
    IntentClassifier.MISSING_PARAM_QUESTIONS .cabinClass = none ∧
    IntentClassifier.MISSING_PARAM_QUESTIONS .checkOut = none ∧
    IntentClassifier.MISSING_PARAM_QUESTIONS .nights = none := by
  refine ⟨rfl, rfl, rfl, rfl, rfl, rfl, rfl, rfl, rfl, rfl, rfl, rfl, rfl, rfl, rfl, rfl,
    rfl, rfl, ?_, ?_, ?_, ?_, ?_, ?_, ?_, rfl, rfl, rfl, rfl, rfl, rfl, rfl, rfl, rfl⟩
  all_goals intro i; cases i <;> rfl

/-- Claim C2: `classifyIntent` returns `GENERAL` when no pattern of any
group matches, and otherwise the intent type of a matching group whose
priority is maximal among all matching groups; the returned params (with no
supplied context) are exactly the fields extracted from the message text. -/
theorem c2_classify_highest_priority (R : JsRegex) (n : Now) (message : String)
    (c : IntentClassifier.ClassifiedIntent)
    (hc : c = IntentClassifier.classifyIntent R n message none) :
    ((∀ g ∈ IntentClassifier.INTENT_PATTERNS,
        IntentClassifier.groupMatches R message g = false) →
      c.type = IntentClassifier.IntentType.GENERAL) ∧
    (∀ g ∈ IntentClassifier.INTENT_PATTERNS,
      IntentClassifier.groupMatches R message g = true →
      ∃ gb ∈ IntentClassifier.INTENT_PATTERNS,
        IntentClassifier.groupMatches R message gb = true ∧
        c.type = gb.type ∧
        ∀ h ∈ IntentClassifier.INTENT_PATTERNS,
          IntentClassifier.groupMatches R message h = true →
            h.priority ≤ gb.priority) ∧
    c.params = IntentClassifier.extractParams R n message := by
  subst hc
  refine ⟨?_, ?_, spreadParams_none_ctx _⟩
  · intro hall
    have hm : (IntentClassifier.INTENT_PATTERNS.filterMap (fun g =>
        if IntentClassifier.groupMatches R message g then some (g.type, g.priority)
        else none)) = [] := by
      rw [List.filterMap_eq_nil_iff]
      intro g hg
      rw [if_neg]
      simp [hall g hg]
    rw [IntentClassifier.classifyIntent_type_eq, hm]
    rfl
  · intro g hg hmatch
    set M := IntentClassifier.INTENT_PATTERNS.filterMap (fun g =>
      if IntentClassifier.groupMatches R message g then some (g.type, g.priority)
      else none) with hM
    have hmem : (g.type, g.priority) ∈ M :=
      (IntentClassifier.mem_matchList R message _).mpr ⟨g, hg, hmatch, rfl⟩
    cases hs : IntentClassifier.sortDesc M with
    | nil =>
      exfalso
      have hx := (IntentClassifier.mem_sortDesc _ M).mpr hmem
      rw [hs] at hx
      cases hx
    | cons h t =>
      obtain ⟨hin, hbd⟩ := IntentClassifier.sortDesc_head_max M h t hs
      obtain ⟨g', hg', hm', hx⟩ := (IntentClassifier.mem_matchList R message h).mp hin
      refine ⟨g', hg', hm', ?_, ?_⟩
      · rw [IntentClassifier.classifyIntent_type_eq, ← hM, hs, hx]
      · intro k hk hkm
        have hkmem : (k.type, k.priority) ∈ M :=
          (IntentClassifier.mem_matchList R message _).mpr ⟨k, hk, hkm, rfl⟩
        have hb := hbd _ hkmem
        rw [hx] at hb
        exact hb

/-- Witness for the C2 theorem: on "find me a hotel in goa", with the
concrete oracle, the hotel group matches and the theorem produces a maximal
matching group carrying the returned intent type. -/
theorem c2_classify_highest_priority_witness :
    ∃ gb ∈ IntentClassifier.INTENT_PATTERNS,
      IntentClassifier.groupMatches R0 "find me a hotel in goa" gb = true ∧
      (IntentClassifier.classifyIntent R0 now0 "find me a hotel in goa" none).type =
        gb.type ∧
      ∀ h ∈ IntentClassifier.INTENT_PATTERNS,
        IntentClassifier.groupMatches R0 "find me a hotel in goa" h = true →
          h.priority ≤ gb.priority :=
  (c2_classify_highest_priority R0 now0 "find me a hotel in goa" _ rfl).2.1
    hotelGroup (by decide) (by decide)

/-- Claim C3: `classifyIntent` merges the newly extracted fields over the
supplied context (context fields not re-extracted persist), its missing list
is exactly the required parameters of the detected intent that are absent
(falsy) in the merged params, in the required order; the list is empty for
every non-booking intent, and the follow-up question is defined iff the list
is non-empty. -/
theorem c3_classify_missing_params (R : JsRegex) (n : Now) (message : String)
    (ctx : Option ExtractedParams) (c : IntentClassifier.ClassifiedIntent)
    (hc : c = IntentClassifier.classifyIntent R n message ctx) :
    c.params = spreadParams ctx (IntentClassifier.extractParams R n message) ∧
    c.missingParams = (IntentClassifier.REQUIRED_PARAMS c.type).filter
      (fun k => !keyTruthy c.params k) ∧
    ((c.type = IntentClassifier.IntentType.BOOKING_FLIGHT ∨
      c.type = IntentClassifier.IntentType.BOOKING_HOTEL ∨
      c.type = IntentClassifier.IntentType.BOOKING_TRIP) ∨ c.missingParams = []) ∧
    (c.followUpQuestion.isSome ↔ c.missingParams ≠ []) := by
  subst hc
  refine ⟨rfl, rfl, ?_, ?_⟩
  · rcases IntentClassifier.required_params_cases
      (IntentClassifier.classifyIntent R n message ctx).type with h | h
    · exact Or.inl h
    · right
      show (IntentClassifier.REQUIRED_PARAMS
          (IntentClassifier.classifyIntent R n message ctx).type).filter
        (fun k => !keyTruthy (IntentClassifier.classifyIntent R n message ctx).params k) = []
      rw [h]
      rfl
  · exact IntentClassifier.followUp_isSome_aux
      ((IntentClassifier.classifyIntent R n message ctx).type)
      ((IntentClassifier.classifyIntent R n message ctx).params)

/-- Witness for the C3 theorem: in the hotel scenario with no context the
check-in date is missing, so the follow-up question is defined. -/
theorem c3_classify_missing_params_witness :
    (IntentClassifier.classifyIntent R0 now0 "find me a hotel in goa"
      none).followUpQuestion.isSome := by
  have h := c3_classify_missing_params R0 now0 "find me a hotel in goa" none _ rfl
  exact h.2.2.2.mpr (by decide)

/-- Claim C4 as stated is false: on "find me a hotel in goa" with a stored
check-in date no required parameter is missing, yet `handleChatMessage`
performs no external search call at all — the hotel results are generated
from a hard-coded local list (the claim asserts it "proceeds to the
corresponding external search call"). -/
theorem c4_counterexample :
    (IntentClassifier.classifyIntent R0 now0 "find me a hotel in goa" (some ctx0)).type =
      IntentClassifier.IntentType.BOOKING_HOTEL ∧
    (IntentClassifier.classifyIntent R0 now0 "find me a hotel in goa"
      (some ctx0)).missingParams = [] ∧
    (ChatHandler.handleChatMessage env0 O0 R0 now0 "find me a hotel in goa" []
      (some ctx0)).2 = [] ∧
    ∃ resp,
      (ChatHandler.handleChatMessage env0 O0 R0 now0 "find me a hotel in goa" []
        (some ctx0)).1 = Except.ok resp ∧
      resp.needsMoreInfo = false ∧
      resp.searchResults = some (ChatHandler.generateHotelResults "goa") := by
  refine ⟨by decide, by decide, rfl, ⟨_, rfl, rfl, ?_⟩⟩
  decide

/-- Claim C4 (amended): for every classified booking intent with at least
one missing required parameter, `handleChatMessage` asks the clarifying
question of the first missing field, echoes the partial params in the state,
sets `needsMoreInfo := true` and performs no external search; when no
required parameter is missing it returns `needsMoreInfo := false`, the
flight handler performing exactly one external Amadeus search, the hotel
handler returning locally generated hotel results with no external call,
and the trip handler performing the flight search through the flight handler
(when the never-required origin is absent, the trip path instead throws
before any call). -/
theorem c4_booking_dispatch {FD : Type} (env : ChatHandler.Env)
    (O : ChatHandler.Oracles FD) (R : JsRegex) (n : Now) (message : String)
    (history : List (String × String)) (ctx : Option ExtractedParams)
    (c : IntentClassifier.ClassifiedIntent)
    (hc : c = IntentClassifier.classifyIntent R n message ctx) :
    (∀ k ks, (c.type = IntentClassifier.IntentType.BOOKING_FLIGHT ∨
        c.type = IntentClassifier.IntentType.BOOKING_HOTEL ∨
        c.type = IntentClassifier.IntentType.BOOKING_TRIP) →
      c.missingParams = k :: ks →
      ∃ q, IntentClassifier.MISSING_PARAM_QUESTIONS k = some q ∧
        ChatHandler.handleChatMessage env O R n message history ctx =
          (.ok { message := q, intent := c.type, state := c.params
                 needsMoreInfo := true }, [])) ∧
    (c.type = IntentClassifier.IntentType.BOOKING_FLIGHT → c.missingParams = [] →
      ∃ resp q, ChatHandler.handleChatMessage env O R n message history ctx =
          (.ok resp, [.amadeus q]) ∧
        resp.needsMoreInfo = false ∧ resp.state = c.params) ∧
    (c.type = IntentClassifier.IntentType.BOOKING_HOTEL → c.missingParams = [] →
      ∃ d, c.params.destination = some d ∧
        ChatHandler.handleChatMessage env O R n message history ctx =
          (.ok { message := "Here are the best hotels in " ++ ChatHandler.capitalize d ++
                  ". Click \"Book\" to reserve! 🏨"
                 intent := IntentClassifier.IntentType.BOOKING_HOTEL
                 searchResults := some (ChatHandler.generateHotelResults d)
                 state := c.params
                 needsMoreInfo := false }, [])) ∧
    (c.type = IntentClassifier.IntentType.BOOKING_TRIP → c.missingParams = [] →
      (c.params.origin = none →
        ChatHandler.handleChatMessage env O R n message history ctx = (.error (), [])) ∧
      (∀ o, c.params.origin = some o →
        ∃ resp q, ChatHandler.handleChatMessage env O R n message history ctx =
            (.ok resp, [.amadeus q]) ∧
          resp.needsMoreInfo = false ∧ resp.state = c.params)) := by
  subst hc
  refine ⟨?_, ?_, ?_, ?_⟩
  · intro k ks hty hmiss
    have hfq : (IntentClassifier.classifyIntent R n message ctx).followUpQuestion =
        IntentClassifier.MISSING_PARAM_QUESTIONS k := by
      rw [IntentClassifier.classify_followUp_eq, hmiss]
    have hks : (IntentClassifier.MISSING_PARAM_QUESTIONS k).isSome :=
      IntentClassifier.questions_of_required _ k
        (IntentClassifier.classify_missing_subset R n message ctx k
          (hmiss ▸ List.mem_cons_self k ks))
    obtain ⟨q, hq⟩ := Option.isSome_iff_exists.mp hks
    refine ⟨q, hq, ?_⟩
    unfold ChatHandler.handleChatMessage
    dsimp only
    rcases hty with hty | hty | hty <;> rw [hty] <;> dsimp only
    · exact ChatHandler.handleFlightBooking_missing O _ k ks q hmiss (hfq.trans hq)
    · exact ChatHandler.handleHotelBooking_missing _ k ks q hmiss (hfq.trans hq)
    · exact ChatHandler.handleTripBooking_missing O _ k ks q hmiss (hfq.trans hq)
  · intro hty hmiss
    have hto := IntentClassifier.classify_complete_truthy R n message ctx hmiss
    rw [hty] at hto
    have ho := hto .origin (by simp [IntentClassifier.REQUIRED_PARAMS])
    have hd := hto .destination (by simp [IntentClassifier.REQUIRED_PARAMS])
    simp only [keyTruthy] at ho hd
    obtain ⟨o, hoe⟩ := truthyStr_some _ ho
    obtain ⟨d, hde⟩ := truthyStr_some _ hd
    obtain ⟨resp, q, hh, hn, hs⟩ :=
      ChatHandler.handleFlightBooking_complete O _ o d hmiss hoe hde
    refine ⟨resp, q, ?_, hn, hs⟩
    unfold ChatHandler.handleChatMessage
    dsimp only
    rw [hty]
    exact hh
  · intro hty hmiss
    have hto := IntentClassifier.classify_complete_truthy R n message ctx hmiss
    rw [hty] at hto
    have hd := hto .destination (by simp [IntentClassifier.REQUIRED_PARAMS])
    simp only [keyTruthy] at hd
    obtain ⟨d, hde⟩ := truthyStr_some _ hd
    refine ⟨d, hde, ?_⟩
    unfold ChatHandler.handleChatMessage
    dsimp only
    rw [hty]
    exact ChatHandler.handleHotelBooking_complete _ d hmiss hde
  · intro hty hmiss
    constructor
    · intro ho
      unfold ChatHandler.handleChatMessage
      dsimp only
      rw [hty]
      exact ChatHandler.handleTripBooking_origin_none O _ hmiss ho
    · intro o ho
      have hto := IntentClassifier.classify_complete_truthy R n message ctx hmiss
      rw [hty] at hto
      have hd := hto .destination (by simp [IntentClassifier.REQUIRED_PARAMS])
      simp only [keyTruthy] at hd
      obtain ⟨d, hde⟩ := truthyStr_some _ hd
      obtain ⟨resp, q, hh, hn, hs⟩ :=
        ChatHandler.handleTripBooking_complete_origin O _ o d hmiss ho hde
      refine ⟨resp, q, ?_, hn, hs⟩
      unfold ChatHandler.handleChatMessage
      dsimp only
      rw [hty]
      exact hh

/-- Witness for the C4 theorem: the hotel scenario with a stored check-in
date takes the complete-hotel branch. -/
theorem c4_booking_dispatch_witness :
    ∃ d, (IntentClassifier.classifyIntent R0 now0 "find me a hotel in goa"
        (some ctx0)).params.destination = some d ∧
      ChatHandler.handleChatMessage env0 O0 R0 now0 "find me a hotel in goa" []
          (some ctx0) =
        (.ok { message := "Here are the best hotels in " ++ ChatHandler.capitalize d ++
                ". Click \"Book\" to reserve! 🏨"
               intent := IntentClassifier.IntentType.BOOKING_HOTEL
               searchResults := some (ChatHandler.generateHotelResults d)
               state := (IntentClassifier.classifyIntent R0 now0
                 "find me a hotel in goa" (some ctx0)).params
               needsMoreInfo := false }, []) :=
  (c4_booking_dispatch env0 O0 R0 now0 "find me a hotel in goa" [] (some ctx0) _
    rfl).2.2.1 (by decide) (by decide)

/-- Claim C5: when an external call fails the handlers still return an
ordinary response: a thrown LLM classification falls back to keyword
classification, a thrown Amadeus flight search yields the hard-coded
fallback flights with `needsMoreInfo := false`, and both general-chat
handlers return their fixed fallback strings; no error propagates. -/
theorem c5_error_fallbacks {FD : Type} (env : ChatHandler.Env)
    (O : ChatHandler.Oracles FD) (OS : SmartChat.Oracles FD) (message : String)
    (history : List (String × String)) (cl : IntentClassifier.ClassifiedIntent)
    (o d : String) (hm : cl.missingParams = []) (ho : cl.params.origin = some o)
    (hd : cl.params.destination = some d)
    (hA : ∀ q, O.amadeusSearch q = .error ())
    (hllm : OS.llm = .error ())
    (hOg : O.openaiGeneral = .error ()) (hSg : OS.openaiGeneral = .error ())
    (henv : env.openaiKey = true) :
    (∀ pc, LLMClassifier.classifyIntentWithLLM OS.llm message pc =
      LLMClassifier.fallbackClassify message) ∧
    (∃ q, ChatHandler.handleFlightBooking O cl =
      (.ok { message := "I found some flight options from " ++
              ChatHandler.capitalize o ++ " to " ++ ChatHandler.capitalize d ++ ":"
             intent := IntentClassifier.IntentType.BOOKING_FLIGHT
             searchResults := some (ChatHandler.generateFallbackFlights cl.params)
             state := cl.params
             needsMoreInfo := false }, [.amadeus q])) ∧
    (ChatHandler.handleGeneralChat env O message cl history =
      (.ok (ChatHandler.generalChatFallback cl.params), [.openai])) ∧
    (SmartChat.handleGeneral env OS message history =
      (SmartChat.generalFallback, [.openai])) := by
  refine ⟨?_, ?_, ?_, ?_⟩
  · intro pc
    rw [hllm]
    rfl
  · unfold ChatHandler.handleFlightBooking
    rw [hm]
    dsimp only
    rw [ho, hd]
    dsimp only
    rw [hA]
    exact ⟨_, rfl⟩
  · unfold ChatHandler.handleGeneralChat
    rw [henv, hOg]
    rfl
  · unfold SmartChat.handleGeneral
    rw [henv, hSg]
    rfl

/-- Witness for the C5 theorem with the all-failing oracles: the smart
general handler returns its fixed fallback string. -/
theorem c5_error_fallbacks_witness :
    SmartChat.handleGeneral env0 OS0 "hello there" [] =
      (SmartChat.generalFallback, [.openai]) :=
  (c5_error_fallbacks env0 O0 OS0 "hello there" [] clC5 "delhi" "goa" rfl rfl rfl
    (fun _ => rfl) rfl rfl rfl rfl).2.2.2

/-- Claim C6: when the LLM labels a message `ANSWER_FOLLOWUP` and the stored
state has a previous intent, `handleSmartChat` merges the newly extracted
params over the stored ones and resumes handling under that previous intent
(the routing switch applied to it); with no previous intent it asks whether
the user wants flights, hotels or destination information, with intent
`GENERAL` and `needsMoreInfo := true`. -/
theorem c6_answer_followup {FD : Type} (env : ChatHandler.Env)
    (OS : SmartChat.Oracles FD) (message : String)
    (history : List (String × String)) (st : Option SmartChat.ConversationState)
    (cl : LLMClassifier.ClassifiedIntent)
    (hcl : cl = LLMClassifier.classifyIntentWithLLM OS.llm message
      (some (SmartChat.contextOf st)))
    (hty : cl.type = LLMClassifier.IntentType.ANSWER_FOLLOWUP) :
    (∀ prev, st.bind (·.lastIntent) = some prev →
      SmartChat.handleSmartChat env OS message history st =
        SmartChat.routeIntent env OS message history prev
          (LLMClassifier.mergeParams (st.bind (·.params)) cl.params) cl) ∧
    (st.bind (·.lastIntent) = none →
      SmartChat.handleSmartChat env OS message history st =
        ({ message := "I noticed you provided some details! Are you looking for flights, hotels, or information about a destination?"
           intent := .GENERAL
           state := cl.params
           needsMoreInfo := true }, [])) := by
  subst hcl
  constructor
  · intro prev hprev
    unfold SmartChat.handleSmartChat
    dsimp only
    rw [hty]
    simp [hprev]
  · intro hprev
    unfold SmartChat.handleSmartChat
    dsimp only
    rw [hty]
    simp [hprev]

/-- Witness for the C6 theorem: an `ANSWER_FOLLOWUP` reply over a stored
hotel booking resumes the hotel route on the merged params. -/
theorem c6_answer_followup_witness :
    SmartChat.handleSmartChat env0 OSaf "8 jan" [] (some st0) =
      SmartChat.routeIntent env0 OSaf "8 jan" []
        LLMClassifier.IntentType.BOOKING_HOTEL
        (LLMClassifier.mergeParams ((some st0).bind (·.params))
          (LLMClassifier.classifyIntentWithLLM OSaf.llm "8 jan"
            (some (SmartChat.contextOf (some st0)))).params)
        (LLMClassifier.classifyIntentWithLLM OSaf.llm "8 jan"
          (some (SmartChat.contextOf (some st0)))) :=
  (c6_answer_followup env0 OSaf "8 jan" [] (some st0) _ rfl (by decide)).1
    LLMClassifier.IntentType.BOOKING_HOTEL (by decide)

/-- Claim C10 as stated is false: for the message text "8 jan 2020"
(a day-and-month date with an explicit year) the parsed date lies in the
past, the year is incremented only once, and the extracted departure date
2021-01-08 is still earlier than today (11 October 2026). -/
theorem c10_counterexample :
    parseDateYD now0 "8 jan 2020" = some ⟨2021, 8⟩ ∧
    ydLt ⟨2021, 8⟩ (nowDate now0) = true ∧
    parseDateFromMatch now0 "8 jan 2020" = "2021-01-08" := by
  refine ⟨by decide, by decide, ?_⟩
  rfl

/-- Claim C10 (amended): for every message match carrying a day-and-month
date *without an explicit year* (and for the relative keywords), the date
extracted by `parseDateFromMatch` is never earlier than today — if the date
built from the parsed day and month in the current year lies in the past,
the year is incremented by one before formatting; a date with an explicit
past year is incremented only once and may remain in the past. -/
theorem c10_no_year_not_before_today (n : Now) (s : String) (yd : YDate)
    (hv : ValidNow n)
    (hyear : yearScan (jsToLower s).toList = none)
    (hres : parseDateYD n s = some yd) :
    ydLt yd (nowDate n) = false := by
  unfold parseDateYD at hres
  dsimp only at hres
  split_ifs at hres with h1 h2 h3 h4
  · injection hres with hres
    subst hres
    exact addDays_not_past n 1 hv (by norm_num)
  · injection hres with hres
    subst hres
    rw [ydLt_false_iff]
    right
    exact ⟨rfl, le_refl _⟩
  · injection hres with hres
    subst hres
    exact addDays_not_past n 7 hv (by norm_num)
  · injection hres with hres
    subst hres
    exact nextMonth_not_past n hv
  · rcases hd : dayScan (jsToLower s).toList with _ | d <;> rw [hd] at hres
    · rcases hmo : monthScan (jsToLower s) with _ | m <;> rw [hmo] at hres <;>
        simp at hres
    · rcases hmo : monthScan (jsToLower s) with _ | m <;> rw [hmo] at hres
      · simp at hres
      · rw [hyear] at hres
        injection hres with hres
        subst hres
        have hb := dayScan_bounds _ d hd
        have hm11 := monthScan_le _ m hmo
        exact resolveSpecific_no_year n d m hv hm11 hb.1 hb.2

/-- Witness for the C10 theorem: "8 jan" (no year) parsed on 11 October
2026 gives 8 January 2027, which is not before today. -/
theorem c10_no_year_not_before_today_witness :
    ydLt ⟨2027, 8⟩ (nowDate now0) = false :=
  c10_no_year_not_before_today now0 "8 jan" ⟨2027, 8⟩ ⟨by decide, by decide⟩
    (by decide) (by decide)

/-- Witness for the C9 theorem at a concrete context with absent counts. -/
theorem c9_upsert_row_defaults_witness :
    1 ≤ (ConvContext.buildUpsertRow cC9w).passengers ∧
    1 ≤ (ConvContext.buildUpsertRow cC9w).rooms := by
  have h := c9_upsert_row_defaults cC9w
    (by intro n h; simp [cC9w] at h) (by intro n h; simp [cC9w] at h)
  exact ⟨h.1, h.2.1⟩

end Travel
